import Mathlib

/-!
# Verification of the Window-App drawing engine and type catalog

Shallow embedding of the parametric window/door drawing component
(`client/src/components/WindowDrawing.tsx`, main revision) and the type
catalog (`client/src/lib/windowTypes.ts`).  Numeric values are modelled
with exact rationals; the JavaScript helpers `Math.round`, `Math.min`,
`Math.max` are modelled by their exact counterparts on rationals.
Optional record fields are modelled with an explicit JavaScript-value
type distinguishing `undefined` from `null`, because object
destructuring defaults apply only to `undefined` while the `??` operator
and `typeof` checks also handle `null`.
-/

/-- A JavaScript optional value: `undefined`, `null`, or a proper value. -/
inductive JsOpt (α : Type) where
  | undef : JsOpt α
  | null : JsOpt α
  | val : α → JsOpt α
deriving DecidableEq

/-- Object-destructuring default `const { x = d } = o`: replaces only
`undefined` by the default, leaving `null` alone. -/
def JsOpt.orDefault {α : Type} : JsOpt α → α → JsOpt α
  | .undef, d => .val d
  | .null, _ => .null
  | .val a, _ => .val a

/-- The `??` nullish-coalescing operator: both `undefined` and `null`
fall back to the default. -/
def JsOpt.coalesce {α : Type} : JsOpt α → α → α
  | .undef, d => d
  | .null, d => d
  | .val a, _ => a

/-- JavaScript strict equality of an optional string against a string
literal: `null` and `undefined` are equal to no string. -/
def JsOpt.eqStr : JsOpt String → String → Bool
  | .val s, t => s == t
  | _, _ => false

/-- `typeof x === 'number' ? x : 1` applied to an optional integer. -/
def JsOpt.numOr1 : JsOpt Int → Int
  | .val n => n
  | _ => 1

/-- JavaScript truthiness of an optional boolean (`null`/`undefined` are
falsy). -/
def JsOpt.truthy : JsOpt Bool → Bool
  | .val b => b
  | _ => false

/-- A window record as consumed by the drawing component.  Fields that
the schema marks `notNull` are plain values; the remaining fields carry
the JavaScript optional-value structure. -/
structure Window where
  type : String
  width : Int
  height : Int
  name : JsOpt String
  glassType : String
  openableCasements : JsOpt String
  hasGeorgianBars : JsOpt Bool
  georgianBarsHorizontal : JsOpt Int
  georgianBarsVertical : JsOpt Int
  transomHeight : JsOpt Int
  topCasementsOpenable : JsOpt String
deriving DecidableEq

/-- A catalog entry from `windowTypes.ts`.  The source objects carry no
`category` key, so reading `category` yields `undefined`; that is
modelled by an `Option` field that is `none` on every entry. -/
structure WindowType where
  id : String
  name : String
  description : String
  minWidth : Int
  maxWidth : Int
  minHeight : Int
  maxHeight : Int
  category : Option String := none
deriving DecidableEq, Inhabited

/-- The static window-type catalog (`windowTypes` in `windowTypes.ts`). -/
def windowTypes : List WindowType :=
  [ { id := "single", name := "Single Casement",
      description := "A single pane window that opens outward",
      minWidth := 400, maxWidth := 1000, minHeight := 500, maxHeight := 2000 },
    { id := "double", name := "Double Casement",
      description := "A window with two panes side by side, both can open outward",
      minWidth := 800, maxWidth := 2000, minHeight := 500, maxHeight := 2000 },
    { id := "triple", name := "Triple Casement",
      description := "A window with three panes side by side",
      minWidth := 1200, maxWidth := 2500, minHeight := 500, maxHeight := 2000 },
    { id := "quad", name := "Quad Casement",
      description := "A window with four equal panes side by side",
      minWidth := 1600, maxWidth := 3000, minHeight := 500, maxHeight := 2000 },
    { id := "single-transom", name := "Single with Transom",
      description := "A single casement window with a fixed rectangular transom at the top",
      minWidth := 400, maxWidth := 1000, minHeight := 800, maxHeight := 2000 },
    { id := "double-transom", name := "Double with Transom",
      description := "A double casement window with a fixed rectangular transom at the top",
      minWidth := 800, maxWidth := 2000, minHeight := 800, maxHeight := 2000 },
    { id := "triple-transom", name := "Triple with Transom",
      description := "A triple casement window with a fixed rectangular transom at the top",
      minWidth := 1200, maxWidth := 2500, minHeight := 800, maxHeight := 2000 },
    { id := "quad-transom", name := "Quad with Transom",
      description := "A quad casement window with a fixed rectangular transom at the top",
      minWidth := 1600, maxWidth := 3000, minHeight := 800, maxHeight := 2000 },
    { id := "patio", name := "Patio Doors",
      description := "Large glass doors for patio access",
      minWidth := 1500, maxWidth := 3000, minHeight := 2000, maxHeight := 2500 } ]

/-- `getWindowTypeById` from `windowTypes.ts`:
`windowTypes.find(type => type.id === id) || windowTypes[0]`. -/
def getWindowTypeById (id : String) : WindowType :=
  (windowTypes.find? (fun t => t.id == id)).getD windowTypes.headI

/-- `windowConfig` computed inside the drawing component:
`windowTypes.find(w => w.id === type) || windowTypes[0]`. -/
def windowConfig (win : Window) : WindowType :=
  (windowTypes.find? (fun t => t.id == win.type)).getD windowTypes.headI

/-- JavaScript `Math.round` (round half toward positive infinity). -/
def jround (q : ℚ) : Int := ⌊q + 1/2⌋

/-- The uniform scale factor:
`Math.min(300 / width, 240 / height, 0.2)`. -/
def scaleFactor (width height : Int) : ℚ :=
  min (min (300 / (width : ℚ)) (240 / (height : ℚ))) (1/5)

/-- `svgWidth = Math.round(width * scaleFactor)`. -/
def svgWidth (win : Window) : ℚ :=
  ((jround ((win.width : ℚ) * scaleFactor win.width win.height) : Int) : ℚ)

/-- `svgHeight = Math.round(height * scaleFactor)`. -/
def svgHeight (win : Window) : ℚ :=
  ((jround ((win.height : ℚ) * scaleFactor win.width win.height) : Int) : ℚ)

/-- `frameThickness = Math.max(3, Math.round(45 * scaleFactor))`. -/
def frameThickness (win : Window) : ℚ :=
  ((max 3 (jround (45 * scaleFactor win.width win.height)) : Int) : ℚ)

/-- `mullionThickness = Math.max(2, Math.round(30 * scaleFactor))`. -/
def mullionThickness (win : Window) : ℚ :=
  ((max 2 (jround (30 * scaleFactor win.width win.height)) : Int) : ℚ)

/-- `frameInset = frameThickness + 2`. -/
def frameInset (win : Window) : ℚ := frameThickness win + 2

/-- `innerBorderWidth = Math.max(2, Math.round(50 * scaleFactor))`. -/
def innerBorderWidth (win : Window) : ℚ :=
  ((max 2 (jround (50 * scaleFactor win.width win.height)) : Int) : ℚ)

/-- `georgianBarWidth = Math.max(2, Math.round(25 * scaleFactor))`. -/
def georgianBarWidth (win : Window) : ℚ :=
  ((max 2 (jround (25 * scaleFactor win.width win.height)) : Int) : ℚ)

/-- `doorFrameThickness = Math.max(4, Math.round(55 * scaleFactor))`. -/
def doorFrameThickness (win : Window) : ℚ :=
  ((max 4 (jround (55 * scaleFactor win.width win.height)) : Int) : ℚ)

/-- `doorFrameInset = doorFrameThickness + 2`. -/
def doorFrameInset (win : Window) : ℚ := doorFrameThickness win + 2

/-- `isObscureGlass = glassType === "Obscure" || glassType === "Tinted"`. -/
def isObscureGlass (win : Window) : Bool :=
  win.glassType == "Obscure" || win.glassType == "Tinted"

/-- `glassColor = isObscureGlass ? "#e6f0fa" : "#dbeafe"` (computed by the
component; the main revision never uses it in its output). -/
def glassColor (win : Window) : String :=
  if isObscureGlass win then "#e6f0fa" else "#dbeafe"

/-- Effective `openableCasements` after the destructuring default
`openableCasements = "left"`. -/
def effOpenable (win : Window) : JsOpt String :=
  win.openableCasements.orDefault "left"

/-- Effective `topCasementsOpenable` after the destructuring default
`topCasementsOpenable = "none"`. -/
def effTop (win : Window) : JsOpt String :=
  win.topCasementsOpenable.orDefault "none"

/-- Effective `hasGeorgianBars` after the destructuring default
`hasGeorgianBars = false` and the truthiness test in
`renderGeorgianBars`. -/
def effHasBars (win : Window) : Bool :=
  (win.hasGeorgianBars.orDefault false).truthy

/-- Effective horizontal Georgian-bar count: destructuring default
`georgianBarsHorizontal = 1`, then
`typeof georgianBarsHorizontal === 'number' ? georgianBarsHorizontal : 1`. -/
def effGeorgianHorizontal (win : Window) : Int :=
  (win.georgianBarsHorizontal.orDefault 1).numOr1

/-- Effective vertical Georgian-bar count in the main revision:
destructuring default `georgianBarsVertical = 0`, then
`typeof georgianBarsVertical === 'number' ? georgianBarsVertical : 1`. -/
def effGeorgianVertical (win : Window) : Int :=
  (win.georgianBarsVertical.orDefault 0).numOr1

/-- Effective vertical Georgian-bar count in the later revision of the
component, whose destructuring default is `georgianBarsVertical = 1`. -/
def effGeorgianVerticalAlt (win : Window) : Int :=
  (win.georgianBarsVertical.orDefault 1).numOr1

/-- Effective transom height in millimetres: destructuring default
`transomHeight = 400`, then `transomHeight ?? 400` inside the transom
branches. -/
def effTransomHeight (win : Window) : Int :=
  (win.transomHeight.orDefault 400).coalesce 400

/-- `scaledTransomHeight = (transomHeight ?? 400) * scaleFactor`. -/
def scaledTransomHeight (win : Window) : ℚ :=
  ((effTransomHeight win : Int) : ℚ) * scaleFactor win.width win.height

/-- Effective display name: destructuring default `name = "Window"`; a
`null` value renders as empty JSX text. -/
def effName (win : Window) : String :=
  match win.name.orDefault "Window" with
  | .val s => s
  | _ => ""

/-- A drawable primitive of the scene graph.  Rectangles carry their CSS
class or fill as a style string; polylines and paths carry their
`strokeDasharray` (with `"none"` for solid strokes). -/
inductive Prim where
  | rect : ℚ → ℚ → ℚ → ℚ → String → Prim
  | lineP : ℚ → ℚ → ℚ → ℚ → String → Prim
  | polylineP : List (ℚ × ℚ) → String → Prim
  | pathP : List (ℚ × ℚ) → String → Prim
  | circleP : ℚ → ℚ → ℚ → String → Prim
  | textP : ℚ → ℚ → String → Prim
deriving DecidableEq

/-- The hinge side passed to `renderHingeIndicator`. -/
inductive HingeSide where
  | left : HingeSide
  | right : HingeSide
  | center : HingeSide
deriving DecidableEq

/-- `renderHingeIndicator(x, y, width, height, hingeSide)`: a dashed
(`strokeDasharray "3,3"`) three-point polyline. -/
def renderHingeIndicator (x y w h : ℚ) (side : HingeSide) : Prim :=
  match side with
  | .left => .polylineP [(x + w, y), (x, y + h/2), (x + w, y + h)] "3,3"
  | .right => .polylineP [(x, y), (x + w, y + h/2), (x, y + h)] "3,3"
  | .center => .polylineP [(x + w/2, y), (x + w/2, y + h/2), (x + w/2, y + h)] "3,3"

/-- The horizontal-bar loop of `renderGeorgianBars` (main revision):
white rectangles of thickness `gbw`, the i-th centred at
`y + height/(num+1) * i` for `i` in `1..num`; no bars when `num ≤ 0`. -/
def horizontalGeorgianBars (num : Int) (gbw x y w h : ℚ) : List Prim :=
  if 0 < num then
    (List.range num.toNat).map (fun (i : ℕ) =>
      .rect x (y + h / ((num : ℚ) + 1) * ((i : ℚ) + 1) - gbw/2) w gbw "#ffffff")
  else []

/-- The vertical-bar loop of `renderGeorgianBars` (main revision). -/
def verticalGeorgianBars (num : Int) (gbw x y w h : ℚ) : List Prim :=
  if 0 < num then
    (List.range num.toNat).map (fun (i : ℕ) =>
      .rect (x + w / ((num : ℚ) + 1) * ((i : ℚ) + 1) - gbw/2) y gbw h "#ffffff")
  else []

/-- `renderGeorgianBars(x, y, width, height)` of the main revision:
nothing unless `hasGeorgianBars`; otherwise the horizontal bars followed
by the vertical bars. -/
def renderGeorgianBars (hasBars : Bool) (numH numV : Int) (gbw x y w h : ℚ) :
    List Prim :=
  if !hasBars then []
  else horizontalGeorgianBars numH gbw x y w h ++ verticalGeorgianBars numV gbw x y w h

/-- The horizontal-bar loop of the later revision of
`renderGeorgianBars`: thin lines exactly at `y + height/(num+1) * i`. -/
def horizontalGeorgianBarsAlt (num : Int) (x y w h : ℚ) : List Prim :=
  if 0 < num then
    (List.range num.toNat).map (fun (i : ℕ) =>
      .lineP x (y + h / ((num : ℚ) + 1) * ((i : ℚ) + 1))
        (x + w) (y + h / ((num : ℚ) + 1) * ((i : ℚ) + 1)) "#475569")
  else []

/-- The vertical-bar loop of the later revision of
`renderGeorgianBars`. -/
def verticalGeorgianBarsAlt (num : Int) (x y w h : ℚ) : List Prim :=
  if 0 < num then
    (List.range num.toNat).map (fun (i : ℕ) =>
      .lineP (x + w / ((num : ℚ) + 1) * ((i : ℚ) + 1)) y
        (x + w / ((num : ℚ) + 1) * ((i : ℚ) + 1)) (y + h) "#475569")
  else []

/-- Shorthand for the component-level Georgian-bar call with the
window's own effective values. -/
def winGeorgianBars (win : Window) (x y w h : ℚ) : List Prim :=
  renderGeorgianBars (effHasBars win) (effGeorgianHorizontal win)
    (effGeorgianVertical win) (georgianBarWidth win) x y w h

/-- The `case "single"` branch of `renderWindow`. -/
def renderSingle (win : Window) : List Prim :=
  [ .rect 0 0 (svgWidth win) (svgHeight win) "window-frame",
    .rect (frameInset win) (frameInset win)
      (svgWidth win - frameInset win * 2) (svgHeight win - frameInset win * 2) "glass" ]
  ++ winGeorgianBars win (frameInset win) (frameInset win)
      (svgWidth win - frameInset win * 2) (svgHeight win - frameInset win * 2)
  ++ [ .rect (frameInset win - 1) (frameInset win - 1)
        (svgWidth win - frameInset win * 2 + 2) (svgHeight win - frameInset win * 2 + 2)
        "window-casement",
      .rect (frameInset win + innerBorderWidth win) (frameInset win + innerBorderWidth win)
        (svgWidth win - (frameInset win + innerBorderWidth win) * 2)
        (svgHeight win - (frameInset win + innerBorderWidth win) * 2)
        "window-casement-interior" ]
  ++ (if (effOpenable win).eqStr "left" || (effOpenable win).eqStr "both" then
        [renderHingeIndicator (frameInset win) (frameInset win)
          (svgWidth win - frameInset win * 2) (svgHeight win - frameInset win * 2) .left]
      else [])
  ++ (if (effOpenable win).eqStr "right" || (effOpenable win).eqStr "both" then
        [renderHingeIndicator (frameInset win) (frameInset win)
          (svgWidth win - frameInset win * 2) (svgHeight win - frameInset win * 2) .right]
      else [])

/-- The `case "single-transom"` branch of `renderWindow`. -/
def renderSingleTransom (win : Window) : List Prim :=
  [ .rect 0 0 (svgWidth win) (svgHeight win) "window-frame",
    .rect (frameInset win) (frameInset win)
      (svgWidth win - frameInset win * 2) (svgHeight win - frameInset win * 2) "glass",
    .rect (frameInset win) (frameInset win + scaledTransomHeight win)
      (svgWidth win - frameInset win * 2) (mullionThickness win) "window-mullion",
    .rect (frameInset win - 1) (frameInset win - 1)
      (svgWidth win - frameInset win * 2 + 2) (scaledTransomHeight win + 1)
      "window-casement",
    .rect (frameInset win + innerBorderWidth win) (frameInset win + innerBorderWidth win)
      (svgWidth win - (frameInset win + innerBorderWidth win) * 2)
      (scaledTransomHeight win - innerBorderWidth win * 2) "window-casement-interior",
    .rect (frameInset win - 1)
      (frameInset win + scaledTransomHeight win + mullionThickness win - 1)
      (svgWidth win - frameInset win * 2 + 2)
      (svgHeight win - frameInset win - 10 - scaledTransomHeight win - mullionThickness win)
      "window-casement",
    .rect (frameInset win + innerBorderWidth win)
      (frameInset win + scaledTransomHeight win + mullionThickness win + innerBorderWidth win)
      (svgWidth win - (frameInset win + innerBorderWidth win) * 2)
      (svgHeight win - frameInset win - scaledTransomHeight win - 10 - mullionThickness win
        - innerBorderWidth win * 2)
      "window-casement-interior" ]
  ++ winGeorgianBars win (frameInset win) (frameInset win)
      (svgWidth win - frameInset win * 2) (svgHeight win - frameInset win * 2)
  ++ (if (effTop win).eqStr "left" || (effTop win).eqStr "both" then
        [.pathP [(frameInset win, frameInset win + scaledTransomHeight win - 5),
                 (frameInset win + svgWidth win / 4, frameInset win),
                 (svgWidth win / 2 - frameInset win / 2,
                  frameInset win + scaledTransomHeight win - 5)] "5,5"]
      else [])
  ++ (if (effTop win).eqStr "right" || (effTop win).eqStr "both" then
        [.pathP [(svgWidth win / 2 + frameInset win / 2,
                  frameInset win + scaledTransomHeight win - 5),
                 (frameInset win + svgWidth win * 3 / 4, frameInset win),
                 (svgWidth win - frameInset win,
                  frameInset win + scaledTransomHeight win - 5)] "5,5"]
      else [])
  ++ (if (effTop win).eqStr "center-left" then
        [.pathP [(svgWidth win / 2 - svgWidth win / 6,
                  frameInset win + scaledTransomHeight win - 5),
                 (svgWidth win / 2 - svgWidth win / 12, frameInset win),
                 (svgWidth win / 2, frameInset win + scaledTransomHeight win - 5)] "5,5"]
      else [])
  ++ (if (effTop win).eqStr "center-right" then
        [.pathP [(svgWidth win / 2, frameInset win + scaledTransomHeight win - 5),
                 (svgWidth win / 2 + svgWidth win / 12, frameInset win),
                 (svgWidth win / 2 + svgWidth win / 6,
                  frameInset win + scaledTransomHeight win - 5)] "5,5"]
      else [])
  ++ (if (effOpenable win).eqStr "left" || (effOpenable win).eqStr "both" then
        [renderHingeIndicator (frameInset win)
          (frameInset win + scaledTransomHeight win + mullionThickness win)
          (svgWidth win - frameInset win * 2)
          (svgHeight win - frameInset win - scaledTransomHeight win - mullionThickness win)
          .left]
      else [])
  ++ (if (effOpenable win).eqStr "right" || (effOpenable win).eqStr "both" then
        [renderHingeIndicator (frameInset win)
          (frameInset win + scaledTransomHeight win + mullionThickness win)
          (svgWidth win - frameInset win * 2)
          (svgHeight win - frameInset win - scaledTransomHeight win - mullionThickness win)
          .right]
      else [])
  ++ (if (effOpenable win).eqStr "center" then
        [renderHingeIndicator (frameInset win)
          (frameInset win + scaledTransomHeight win + mullionThickness win)
          (svgWidth win - frameInset win * 2)
          (svgHeight win - frameInset win - scaledTransomHeight win - mullionThickness win)
          .center]
      else [])

/-- The `case "double"` branch of `renderWindow`. -/
def renderDouble (win : Window) : List Prim :=
  [ .rect 0 0 (svgWidth win) (svgHeight win) "window-frame",
    .rect (frameInset win) (frameInset win)
      (svgWidth win - frameInset win * 2) (svgHeight win - frameInset win * 2) "glass" ]
  ++ winGeorgianBars win (frameInset win) (frameInset win)
      (svgWidth win - frameInset win * 2) (svgHeight win - frameInset win * 2)
  ++ [ .rect (frameInset win - 1) (frameInset win - 1)
        (svgWidth win / 2 - frameInset win - frameThickness win / 2 + 2)
        (svgHeight win - frameInset win * 2 + 2) "window-casement",
      .rect (frameInset win + innerBorderWidth win) (frameInset win + innerBorderWidth win)
        (svgWidth win / 2 - frameInset win - frameThickness win / 2
          - innerBorderWidth win * 2 + 2)
        (svgHeight win - (frameInset win + innerBorderWidth win) * 2)
        "window-casement-interior",
      .rect (svgWidth win / 2 + frameThickness win / 2 - 1) (frameInset win - 1)
        (svgWidth win / 2 - frameInset win - frameThickness win / 2 + 2)
        (svgHeight win - frameInset win * 2 + 2) "window-casement",
      .rect (svgWidth win / 2 + frameThickness win / 2 + innerBorderWidth win)
        (frameInset win + innerBorderWidth win)
        (svgWidth win / 2 - frameInset win - frameThickness win / 2
          - innerBorderWidth win * 2 + 2)
        (svgHeight win - (frameInset win + innerBorderWidth win) * 2)
        "window-casement-interior" ]
  ++ (if (effOpenable win).eqStr "left" || (effOpenable win).eqStr "both" then
        [renderHingeIndicator (frameInset win) (frameInset win)
          (svgWidth win / 2 - frameInset win - frameThickness win / 2)
          (svgHeight win - frameInset win * 2) .left]
      else [])
  ++ (if (effOpenable win).eqStr "right" || (effOpenable win).eqStr "both" then
        [renderHingeIndicator (svgWidth win / 2 + frameThickness win / 2) (frameInset win)
          (svgWidth win / 2 - frameInset win - frameThickness win / 2)
          (svgHeight win - frameInset win * 2) .right]
      else [])
  ++ (if (effOpenable win).eqStr "center" then
        [.pathP [(svgWidth win / 2, frameInset win),
                 (svgWidth win / 2, svgHeight win - frameInset win)] "5,5"]
      else [])

/-- The `case "double-transom"` branch of `renderWindow`.  The
horizontal transom bar here is fixed at the top third of the window and
does not read `transomHeight`. -/
def renderDoubleTransom (win : Window) : List Prim :=
  [ .rect 0 0 (svgWidth win) (svgHeight win) "window-frame",
    .rect (frameInset win) (frameInset win)
      (svgWidth win - frameInset win * 2) (svgHeight win - frameInset win * 2) "glass",
    .rect (svgWidth win / 2 - mullionThickness win / 2) (frameInset win)
      (mullionThickness win) (svgHeight win - frameInset win * 2) "window-mullion",
    .rect (frameInset win) (frameInset win + svgHeight win / 3)
      (svgWidth win - frameInset win * 2) (mullionThickness win) "window-mullion",
    .rect (frameInset win - 1) (frameInset win - 1)
      (svgWidth win / 2 - frameInset win - mullionThickness win / 2 + 1)
      (svgHeight win / 3 + 1) "window-casement",
    .rect (frameInset win + innerBorderWidth win) (frameInset win + innerBorderWidth win)
      (svgWidth win / 2 - frameInset win - mullionThickness win / 2
        - innerBorderWidth win * 2)
      (svgHeight win / 3 - innerBorderWidth win * 2) "window-casement-interior",
    .rect (svgWidth win / 2 + mullionThickness win / 2) (frameInset win - 1)
      (svgWidth win / 2 - frameInset win - mullionThickness win / 2 + 1)
      (svgHeight win / 3 + 1) "window-casement",
    .rect (svgWidth win / 2 + mullionThickness win / 2 + innerBorderWidth win)
      (frameInset win + innerBorderWidth win)
      (svgWidth win / 2 - frameInset win - mullionThickness win / 2
        - innerBorderWidth win * 2)
      (svgHeight win / 3 - innerBorderWidth win * 2) "window-casement-interior",
    .rect (frameInset win - 1)
      (frameInset win + svgHeight win / 3 + mullionThickness win - 1)
      (svgWidth win / 2 - frameInset win - mullionThickness win / 2 + 1)
      (svgHeight win - frameInset win - svgHeight win / 3 - mullionThickness win)
      "window-casement",
    .rect (frameInset win + innerBorderWidth win)
      (frameInset win + svgHeight win / 3 + mullionThickness win + innerBorderWidth win)
      (svgWidth win / 2 - frameInset win - mullionThickness win / 2
        - innerBorderWidth win * 2)
      (svgHeight win - frameInset win - svgHeight win / 3 - mullionThickness win
        - innerBorderWidth win * 2)
      "window-casement-interior",
    .rect (svgWidth win / 2 + mullionThickness win / 2)
      (frameInset win + svgHeight win / 3 + mullionThickness win - 1)
      (svgWidth win / 2 - frameInset win - mullionThickness win / 2 + 1)
      (svgHeight win - frameInset win - svgHeight win / 3 - mullionThickness win)
      "window-casement",
    .rect (svgWidth win / 2 + mullionThickness win / 2 + innerBorderWidth win)
      (frameInset win + svgHeight win / 3 + mullionThickness win + innerBorderWidth win)
      (svgWidth win / 2 - frameInset win - mullionThickness win / 2
        - innerBorderWidth win * 2)
      (svgHeight win - frameInset win - svgHeight win / 3 - mullionThickness win
        - innerBorderWidth win * 2)
      "window-casement-interior" ]
  ++ winGeorgianBars win (frameInset win) (frameInset win)
      (svgWidth win - frameInset win * 2) (svgHeight win - frameInset win * 2)
  ++ (if (effOpenable win).eqStr "left" || (effOpenable win).eqStr "both" then
        [renderHingeIndicator (frameInset win)
          (frameInset win + svgHeight win / 3 + mullionThickness win)
          (svgWidth win / 2 - frameInset win - mullionThickness win / 2)
          (svgHeight win * 2 / 3 - frameInset win - mullionThickness win) .left]
      else [])
  ++ (if (effOpenable win).eqStr "right" || (effOpenable win).eqStr "both" then
        [renderHingeIndicator (svgWidth win / 2 + mullionThickness win / 2)
          (frameInset win + svgHeight win / 3 + mullionThickness win)
          (svgWidth win / 2 - frameInset win - mullionThickness win / 2)
          (svgHeight win * 2 / 3 - frameInset win - mullionThickness win) .right]
      else [])

/-- `sectionWidth` of the three-pane branches:
`(svgWidth - frameInset * 2) / 3`. -/
def sectionWidth3 (win : Window) : ℚ := (svgWidth win - frameInset win * 2) / 3

/-- `sectionWidth` of the four-pane branches:
`(svgWidth - frameInset * 2) / 4`. -/
def sectionWidth4 (win : Window) : ℚ := (svgWidth win - frameInset win * 2) / 4

/-- The `case "triple"` branch of `renderWindow`. -/
def renderTriple (win : Window) : List Prim :=
  [ .rect 0 0 (svgWidth win) (svgHeight win) "window-frame",
    .rect (frameInset win) (frameInset win)
      (svgWidth win - frameInset win * 2) (svgHeight win - frameInset win * 2) "glass" ]
  ++ winGeorgianBars win (frameInset win) (frameInset win)
      (svgWidth win - frameInset win * 2) (svgHeight win - frameInset win * 2)
  ++ [ .rect (frameInset win - 1) (frameInset win - 1)
        (sectionWidth3 win - mullionThickness win / 2 + 1)
        (svgHeight win - frameInset win * 2 + 2) "window-casement",
      .rect (frameInset win + innerBorderWidth win) (frameInset win + innerBorderWidth win)
        (sectionWidth3 win - mullionThickness win / 2 - innerBorderWidth win * 2 + 1)
        (svgHeight win - (frameInset win + innerBorderWidth win) * 2)
        "window-casement-interior",
      .rect (frameInset win + sectionWidth3 win + mullionThickness win / 2)
        (frameInset win - 1)
        (sectionWidth3 win - mullionThickness win + 2)
        (svgHeight win - frameInset win * 2 + 2) "window-casement",
      .rect (frameInset win + sectionWidth3 win + mullionThickness win / 2
          + innerBorderWidth win)
        (frameInset win + innerBorderWidth win)
        (sectionWidth3 win - mullionThickness win - innerBorderWidth win * 2 + 2)
        (svgHeight win - (frameInset win + innerBorderWidth win) * 2)
        "window-casement-interior",
      .rect (frameInset win + sectionWidth3 win * 2 + mullionThickness win / 2)
        (frameInset win - 1)
        (sectionWidth3 win - mullionThickness win / 2 + 1)
        (svgHeight win - frameInset win * 2 + 2) "window-casement",
      .rect (frameInset win + sectionWidth3 win * 2 + mullionThickness win / 2
          + innerBorderWidth win)
        (frameInset win + innerBorderWidth win)
        (sectionWidth3 win - mullionThickness win / 2 - innerBorderWidth win * 2 + 1)
        (svgHeight win - (frameInset win + innerBorderWidth win) * 2)
        "window-casement-interior",
      .rect (frameInset win + sectionWidth3 win - mullionThickness win / 2)
        (frameInset win) (mullionThickness win)
        (svgHeight win - frameInset win * 2) "window-mullion",
      .rect (frameInset win + sectionWidth3 win * 2 - mullionThickness win / 2)
        (frameInset win) (mullionThickness win)
        (svgHeight win - frameInset win * 2) "window-mullion" ]
  ++ (if (effOpenable win).eqStr "left" || (effOpenable win).eqStr "both" then
        [renderHingeIndicator (frameInset win) (frameInset win) (sectionWidth3 win)
          (svgHeight win - frameInset win * 2) .left]
      else [])
  ++ (if (effOpenable win).eqStr "right" || (effOpenable win).eqStr "both" then
        [renderHingeIndicator (frameInset win + sectionWidth3 win * 2) (frameInset win)
          (sectionWidth3 win) (svgHeight win - frameInset win * 2) .right]
      else [])
  ++ (if (effOpenable win).eqStr "center-left" then
        [renderHingeIndicator (frameInset win + sectionWidth3 win) (frameInset win)
          (sectionWidth3 win) (svgHeight win - frameInset win * 2) .left]
      else [])
  ++ (if (effOpenable win).eqStr "center-right" then
        [renderHingeIndicator (frameInset win + sectionWidth3 win) (frameInset win)
          (sectionWidth3 win) (svgHeight win - frameInset win * 2) .right]
      else [])

/-- The `case "quad"` branch of `renderWindow`. -/
def renderQuad (win : Window) : List Prim :=
  [ .rect 0 0 (svgWidth win) (svgHeight win) "window-frame",
    .rect (frameInset win) (frameInset win)
      (svgWidth win - frameInset win * 2) (svgHeight win - frameInset win * 2) "glass" ]
  ++ winGeorgianBars win (frameInset win) (frameInset win)
      (svgWidth win - frameInset win * 2) (svgHeight win - frameInset win * 2)
  ++ [ .rect (frameInset win - 1) (frameInset win - 1)
        (sectionWidth4 win - mullionThickness win / 2 + 1)
        (svgHeight win - frameInset win * 2 + 2) "window-casement",
      .rect (frameInset win + innerBorderWidth win) (frameInset win + innerBorderWidth win)
        (sectionWidth4 win - mullionThickness win / 2 - innerBorderWidth win * 2 + 1)
        (svgHeight win - (frameInset win + innerBorderWidth win) * 2)
        "window-casement-interior",
      .rect (frameInset win + sectionWidth4 win + mullionThickness win / 2)
        (frameInset win - 1)
        (sectionWidth4 win - mullionThickness win + 2)
        (svgHeight win - frameInset win * 2 + 2) "window-casement",
      .rect (frameInset win + sectionWidth4 win + mullionThickness win / 2
          + innerBorderWidth win)
        (frameInset win + innerBorderWidth win)
        (sectionWidth4 win - mullionThickness win - innerBorderWidth win * 2 + 2)
        (svgHeight win - (frameInset win + innerBorderWidth win) * 2)
        "window-casement-interior",
      .rect (frameInset win + sectionWidth4 win * 2 + mullionThickness win / 2)
        (frameInset win - 1)
        (sectionWidth4 win - mullionThickness win + 2)
        (svgHeight win - frameInset win * 2 + 2) "window-casement",
      .rect (frameInset win + sectionWidth4 win * 2 + mullionThickness win / 2
          + innerBorderWidth win)
        (frameInset win + innerBorderWidth win)
        (sectionWidth4 win - mullionThickness win - innerBorderWidth win * 2 + 2)
        (svgHeight win - (frameInset win + innerBorderWidth win) * 2)
        "window-casement-interior",
      .rect (frameInset win + sectionWidth4 win * 3 + mullionThickness win / 2)
        (frameInset win - 1)
        (sectionWidth4 win - mullionThickness win / 2 + 1)
        (svgHeight win - frameInset win * 2 + 2) "window-casement",
      .rect (frameInset win + sectionWidth4 win * 3 + mullionThickness win / 2
          + innerBorderWidth win)
        (frameInset win + innerBorderWidth win)
        (sectionWidth4 win - mullionThickness win / 2 - innerBorderWidth win * 2 + 1)
        (svgHeight win - (frameInset win + innerBorderWidth win) * 2)
        "window-casement-interior",
      .rect (frameInset win + sectionWidth4 win - mullionThickness win / 2)
        (frameInset win) (mullionThickness win)
        (svgHeight win - frameInset win * 2) "window-mullion",
      .rect (frameInset win + sectionWidth4 win * 2 - mullionThickness win / 2)
        (frameInset win) (mullionThickness win)
        (svgHeight win - frameInset win * 2) "window-mullion",
      .rect (frameInset win + sectionWidth4 win * 3 - mullionThickness win / 2)
        (frameInset win) (mullionThickness win)
        (svgHeight win - frameInset win * 2) "window-mullion" ]
  ++ (if (effOpenable win).eqStr "left" || (effOpenable win).eqStr "both"
        || (effOpenable win).eqStr "outer" then
        [renderHingeIndicator (frameInset win) (frameInset win)
          (sectionWidth4 win - mullionThickness win / 2)
          (svgHeight win - frameInset win * 2) .left]
      else [])
  ++ (if (effOpenable win).eqStr "center-left" then
        [renderHingeIndicator (frameInset win + sectionWidth4 win + mullionThickness win / 2)
          (frameInset win) (sectionWidth4 win - mullionThickness win)
          (svgHeight win - frameInset win * 2) .left]
      else [])
  ++ (if (effOpenable win).eqStr "center-right" then
        [renderHingeIndicator
          (frameInset win + sectionWidth4 win * 2 + mullionThickness win / 2)
          (frameInset win) (sectionWidth4 win - mullionThickness win)
          (svgHeight win - frameInset win * 2) .right]
      else [])
  ++ (if (effOpenable win).eqStr "right" || (effOpenable win).eqStr "both"
        || (effOpenable win).eqStr "outer" then
        [renderHingeIndicator
          (frameInset win + sectionWidth4 win * 3 + mullionThickness win / 2)
          (frameInset win) (sectionWidth4 win - mullionThickness win / 2)
          (svgHeight win - frameInset win * 2) .right]
      else [])

/-- The `case "quad-transom"` branch of `renderWindow`.  Its transom bar
sits at `(transomHeight ?? 400) * scaleFactor` below the glass top. -/
def renderQuadTransom (win : Window) : List Prim :=
  [ .rect 0 0 (svgWidth win) (svgHeight win) "window-frame",
    .rect (frameInset win) (frameInset win)
      (svgWidth win - frameInset win * 2) (svgHeight win - frameInset win * 2) "glass",
    .rect (frameInset win) (frameInset win + scaledTransomHeight win)
      (svgWidth win - frameInset win * 2) (mullionThickness win) "window-mullion",
    .rect (frameInset win + sectionWidth4 win - mullionThickness win / 2)
      (frameInset win) (mullionThickness win)
      (svgHeight win - frameInset win * 2) "window-mullion",
    .rect (frameInset win + sectionWidth4 win * 2 - mullionThickness win / 2)
      (frameInset win) (mullionThickness win)
      (svgHeight win - frameInset win * 2) "window-mullion",
    .rect (frameInset win + sectionWidth4 win * 3 - mullionThickness win / 2)
      (frameInset win) (mullionThickness win)
      (svgHeight win - frameInset win * 2) "window-mullion",
    .rect (frameInset win - 1) (frameInset win - 1)
      (sectionWidth4 win - mullionThickness win / 2 + 1)
      (scaledTransomHeight win + 1) "window-casement",
    .rect (frameInset win + innerBorderWidth win) (frameInset win + innerBorderWidth win)
      (sectionWidth4 win - mullionThickness win / 2 - innerBorderWidth win * 2 + 1)
      (scaledTransomHeight win - innerBorderWidth win * 2) "window-casement-interior",
    .rect (frameInset win + sectionWidth4 win + mullionThickness win / 2 - 1)
      (frameInset win - 1)
      (sectionWidth4 win - mullionThickness win + 2)
      (scaledTransomHeight win + 1) "window-casement",
    .rect (frameInset win + sectionWidth4 win + mullionThickness win / 2
        + innerBorderWidth win)
      (frameInset win + innerBorderWidth win)
      (sectionWidth4 win - mullionThickness win - innerBorderWidth win * 2 + 2)
      (scaledTransomHeight win - innerBorderWidth win * 2) "window-casement-interior",
    .rect (frameInset win + sectionWidth4 win * 2 + mullionThickness win / 2 - 1)
      (frameInset win - 1)
      (sectionWidth4 win - mullionThickness win + 2)
      (scaledTransomHeight win + 1) "window-casement",
    .rect (frameInset win + sectionWidth4 win * 2 + mullionThickness win / 2
        + innerBorderWidth win)
      (frameInset win + innerBorderWidth win)
      (sectionWidth4 win - mullionThickness win - innerBorderWidth win * 2 + 2)
      (scaledTransomHeight win - innerBorderWidth win * 2) "window-casement-interior",
    .rect (frameInset win + sectionWidth4 win * 3 + mullionThickness win / 2 - 1)
      (frameInset win - 1)
      (sectionWidth4 win - mullionThickness win / 2 + 1)
      (scaledTransomHeight win + 1) "window-casement",
    .rect (frameInset win + sectionWidth4 win * 3 + mullionThickness win / 2
        + innerBorderWidth win)
      (frameInset win + innerBorderWidth win)
      (sectionWidth4 win - mullionThickness win / 2 - innerBorderWidth win * 2 + 1)
      (scaledTransomHeight win - innerBorderWidth win * 2) "window-casement-interior",
    .rect (frameInset win - 1)
      (frameInset win + scaledTransomHeight win + mullionThickness win - 1)
      (sectionWidth4 win - mullionThickness win / 2 + 1)
      (svgHeight win - frameInset win - scaledTransomHeight win - mullionThickness win + 1)
      "window-casement",
    .rect (frameInset win + innerBorderWidth win)
      (frameInset win + scaledTransomHeight win + mullionThickness win + innerBorderWidth win)
      (sectionWidth4 win - mullionThickness win / 2 - innerBorderWidth win * 2 + 1)
      (svgHeight win - frameInset win - scaledTransomHeight win - mullionThickness win
        - innerBorderWidth win * 2 + 1)
      "window-casement-interior",
    .rect (frameInset win + sectionWidth4 win + mullionThickness win / 2 - 1)
      (frameInset win + scaledTransomHeight win + mullionThickness win - 1)
      (sectionWidth4 win - mullionThickness win + 2)
      (svgHeight win - frameInset win - scaledTransomHeight win - mullionThickness win + 1)
      "window-casement",
    .rect (frameInset win + sectionWidth4 win + mullionThickness win / 2
        + innerBorderWidth win)
      (frameInset win + scaledTransomHeight win + mullionThickness win + innerBorderWidth win)
      (sectionWidth4 win - mullionThickness win - innerBorderWidth win * 2 + 2)
      (svgHeight win - frameInset win - scaledTransomHeight win - mullionThickness win
        - innerBorderWidth win * 2 + 1)
      "window-casement-interior",
    .rect (frameInset win + sectionWidth4 win * 2 + mullionThickness win / 2 - 1)
      (frameInset win + scaledTransomHeight win + mullionThickness win - 1)
      (sectionWidth4 win - mullionThickness win + 2)
      (svgHeight win - frameInset win - scaledTransomHeight win - mullionThickness win + 1)
      "window-casement",
    .rect (frameInset win + sectionWidth4 win * 2 + mullionThickness win / 2
        + innerBorderWidth win)
      (frameInset win + scaledTransomHeight win + mullionThickness win + innerBorderWidth win)
      (sectionWidth4 win - mullionThickness win - innerBorderWidth win * 2 + 2)
      (svgHeight win - frameInset win - scaledTransomHeight win - mullionThickness win
        - innerBorderWidth win * 2 + 1)
      "window-casement-interior",
    .rect (frameInset win + sectionWidth4 win * 3 + mullionThickness win / 2 - 1)
      (frameInset win + scaledTransomHeight win + mullionThickness win - 1)
      (sectionWidth4 win - mullionThickness win / 2 + 1)
      (svgHeight win - frameInset win - scaledTransomHeight win - mullionThickness win + 1)
      "window-casement",
    .rect (frameInset win + sectionWidth4 win * 3 + mullionThickness win / 2
        + innerBorderWidth win)
      (frameInset win + scaledTransomHeight win + mullionThickness win + innerBorderWidth win)
      (sectionWidth4 win - mullionThickness win / 2 - innerBorderWidth win * 2 + 1)
      (svgHeight win - frameInset win - scaledTransomHeight win - mullionThickness win
        - innerBorderWidth win * 2 + 1)
      "window-casement-interior" ]
  ++ winGeorgianBars win (frameInset win) (frameInset win)
      (svgWidth win - frameInset win * 2) (svgHeight win - frameInset win * 2)
  ++ (if (effOpenable win).eqStr "left" || (effOpenable win).eqStr "both"
        || (effOpenable win).eqStr "outer" then
        [renderHingeIndicator (frameInset win)
          (frameInset win + scaledTransomHeight win + mullionThickness win)
          (sectionWidth4 win - mullionThickness win / 2)
          (svgHeight win - frameInset win - scaledTransomHeight win - mullionThickness win)
          .left]
      else [])
  ++ (if (effOpenable win).eqStr "center-left" then
        [renderHingeIndicator (frameInset win + sectionWidth4 win + mullionThickness win / 2)
          (frameInset win + scaledTransomHeight win + mullionThickness win)
          (sectionWidth4 win - mullionThickness win)
          (svgHeight win - frameInset win - scaledTransomHeight win - mullionThickness win)
          .left]
      else [])
  ++ (if (effOpenable win).eqStr "center-right" then
        [renderHingeIndicator
          (frameInset win + sectionWidth4 win * 2 + mullionThickness win / 2)
          (frameInset win + scaledTransomHeight win + mullionThickness win)
          (sectionWidth4 win - mullionThickness win)
          (svgHeight win - frameInset win - scaledTransomHeight win - mullionThickness win)
          .right]
      else [])
  ++ (if (effOpenable win).eqStr "right" || (effOpenable win).eqStr "both"
        || (effOpenable win).eqStr "outer" then
        [renderHingeIndicator
          (frameInset win + sectionWidth4 win * 3 + mullionThickness win / 2)
          (frameInset win + scaledTransomHeight win + mullionThickness win)
          (sectionWidth4 win - mullionThickness win / 2)
          (svgHeight win - frameInset win - scaledTransomHeight win - mullionThickness win)
          .right]
      else [])

/-- `lowerHeight` of the triple-transom branch:
`(svgHeight * 2/3) - frameInset - mullionThickness + 1`. -/
def lowerHeight3 (win : Window) : ℚ :=
  svgHeight win * 2 / 3 - frameInset win - mullionThickness win + 1

/-- The `case "triple-transom"` branch of `renderWindow`.  As in the
double-transom branch, the transom bar is fixed at the top third and
`transomHeight` is not consulted. -/
def renderTripleTransom (win : Window) : List Prim :=
  [ .rect 0 0 (svgWidth win) (svgHeight win) "window-frame",
    .rect (frameInset win) (frameInset win)
      (svgWidth win - frameInset win * 2) (svgHeight win - frameInset win * 2) "glass",
    .rect (frameInset win + sectionWidth3 win - mullionThickness win / 2)
      (frameInset win) (mullionThickness win)
      (svgHeight win - frameInset win * 2) "window-mullion",
    .rect (frameInset win + sectionWidth3 win * 2 - mullionThickness win / 2)
      (frameInset win) (mullionThickness win)
      (svgHeight win - frameInset win * 2) "window-mullion",
    .rect (frameInset win) (frameInset win + svgHeight win / 3)
      (svgWidth win - frameInset win * 2) (mullionThickness win) "window-mullion",
    .rect (frameInset win - 1) (frameInset win - 1)
      (sectionWidth3 win - mullionThickness win / 2 + 1)
      (svgHeight win / 3 + 1) "window-casement",
    .rect (frameInset win + innerBorderWidth win) (frameInset win + innerBorderWidth win)
      (sectionWidth3 win - mullionThickness win / 2 - innerBorderWidth win * 2 + 1)
      (svgHeight win / 3 - innerBorderWidth win * 2) "window-casement-interior",
    .rect (frameInset win + sectionWidth3 win + mullionThickness win / 2)
      (frameInset win - 1)
      (sectionWidth3 win - mullionThickness win)
      (svgHeight win / 3 + 1) "window-casement",
    .rect (frameInset win + sectionWidth3 win + mullionThickness win / 2
        + innerBorderWidth win)
      (frameInset win + innerBorderWidth win)
      (sectionWidth3 win - mullionThickness win - innerBorderWidth win * 2)
      (svgHeight win / 3 - innerBorderWidth win * 2) "window-casement-interior",
    .rect (frameInset win + sectionWidth3 win * 2 + mullionThickness win / 2)
      (frameInset win - 1)
      (sectionWidth3 win - mullionThickness win / 2 + 1)
      (svgHeight win / 3 + 1) "window-casement",
    .rect (frameInset win + sectionWidth3 win * 2 + mullionThickness win / 2
        + innerBorderWidth win)
      (frameInset win + innerBorderWidth win)
      (sectionWidth3 win - mullionThickness win / 2 - innerBorderWidth win * 2 + 1)
      (svgHeight win / 3 - innerBorderWidth win * 2) "window-casement-interior",
    .rect (frameInset win - 1)
      (frameInset win + svgHeight win / 3 + mullionThickness win - 1)
      (sectionWidth3 win - mullionThickness win / 2 + 1)
      (lowerHeight3 win) "window-casement",
    .rect (frameInset win + innerBorderWidth win)
      (frameInset win + svgHeight win / 3 + mullionThickness win + innerBorderWidth win)
      (sectionWidth3 win - mullionThickness win / 2 - innerBorderWidth win * 2 + 1)
      (lowerHeight3 win - innerBorderWidth win * 2) "window-casement-interior",
    .rect (frameInset win + sectionWidth3 win + mullionThickness win / 2)
      (frameInset win + svgHeight win / 3 + mullionThickness win - 1)
      (sectionWidth3 win - mullionThickness win)
      (lowerHeight3 win) "window-casement",
    .rect (frameInset win + sectionWidth3 win + mullionThickness win / 2
        + innerBorderWidth win)
      (frameInset win + svgHeight win / 3 + mullionThickness win + innerBorderWidth win)
      (sectionWidth3 win - mullionThickness win - innerBorderWidth win * 2)
      (lowerHeight3 win - innerBorderWidth win * 2) "window-casement-interior",
    .rect (frameInset win + sectionWidth3 win * 2 + mullionThickness win / 2)
      (frameInset win + svgHeight win / 3 + mullionThickness win - 1)
      (sectionWidth3 win - mullionThickness win / 2 + 1)
      (lowerHeight3 win) "window-casement",
    .rect (frameInset win + sectionWidth3 win * 2 + mullionThickness win / 2
        + innerBorderWidth win)
      (frameInset win + svgHeight win / 3 + mullionThickness win + innerBorderWidth win)
      (sectionWidth3 win - mullionThickness win / 2 - innerBorderWidth win * 2 + 1)
      (lowerHeight3 win - innerBorderWidth win * 2) "window-casement-interior" ]
  ++ winGeorgianBars win (frameInset win) (frameInset win)
      (svgWidth win - frameInset win * 2) (svgHeight win - frameInset win * 2)
  ++ (if (effOpenable win).eqStr "left" || (effOpenable win).eqStr "both" then
        [renderHingeIndicator (frameInset win)
          (frameInset win + svgHeight win / 3 + mullionThickness win)
          (svgWidth win / 3 - frameInset win - frameThickness win / 2)
          (svgHeight win * 2 / 3 - frameInset win - mullionThickness win) .left]
      else [])
  ++ (if (effOpenable win).eqStr "right" || (effOpenable win).eqStr "both" then
        [renderHingeIndicator (svgWidth win / 3 * 2 + mullionThickness win / 2)
          (frameInset win + svgHeight win / 3 + mullionThickness win)
          (svgWidth win / 3 - frameInset win - frameThickness win / 2)
          (svgHeight win * 2 / 3 - frameInset win - mullionThickness win) .right]
      else [])
  ++ (if (effOpenable win).eqStr "center-left" then
        [renderHingeIndicator (svgWidth win / 3 + mullionThickness win / 2)
          (frameInset win + svgHeight win / 3 + mullionThickness win)
          (svgWidth win / 3 - mullionThickness win)
          (svgHeight win * 2 / 3 - frameInset win - mullionThickness win) .left]
      else [])
  ++ (if (effOpenable win).eqStr "center-right" then
        [renderHingeIndicator (svgWidth win / 3 + mullionThickness win / 2)
          (frameInset win + svgHeight win / 3 + mullionThickness win)
          (svgWidth win / 3 - mullionThickness win)
          (svgHeight win * 2 / 3 - frameInset win - mullionThickness win) .right]
      else [])

/-- The `case "slider"` branch of `renderWindow`: two panes, a middle
mullion, and a solid double-headed arrow instead of hinge marks. -/
def renderSlider (win : Window) : List Prim :=
  [ .rect 0 0 (svgWidth win) (svgHeight win) "window-frame",
    .rect (frameInset win) (frameInset win)
      (svgWidth win - frameInset win * 2) (svgHeight win - frameInset win * 2) "glass" ]
  ++ winGeorgianBars win (frameInset win) (frameInset win)
      (svgWidth win - frameInset win * 2) (svgHeight win - frameInset win * 2)
  ++ [ .rect (svgWidth win / 2 - mullionThickness win / 2) (frameInset win)
        (mullionThickness win) (svgHeight win - frameInset win * 2) "window-mullion",
      .rect (frameInset win - 1) (frameInset win - 1)
        (svgWidth win / 2 - frameInset win - mullionThickness win / 2 + 1)
        (svgHeight win - frameInset win * 2 + 2) "window-casement",
      .rect (frameInset win + innerBorderWidth win) (frameInset win + innerBorderWidth win)
        (svgWidth win / 2 - frameInset win - mullionThickness win / 2 - innerBorderWidth win)
        (svgHeight win - (frameInset win + innerBorderWidth win) * 2)
        "window-casement-interior",
      .rect (svgWidth win / 2 + mullionThickness win / 2) (frameInset win - 1)
        (svgWidth win / 2 - frameInset win - mullionThickness win / 2 + 1)
        (svgHeight win - frameInset win * 2 + 2) "window-casement",
      .rect (svgWidth win / 2 + mullionThickness win / 2 + innerBorderWidth win)
        (frameInset win + innerBorderWidth win)
        (svgWidth win / 2 - frameInset win - mullionThickness win / 2 - innerBorderWidth win)
        (svgHeight win - (frameInset win + innerBorderWidth win) * 2)
        "window-casement-interior",
      .lineP (svgWidth win / 2 + frameInset win * (3/2)) (svgHeight win / 2)
        (svgWidth win - frameInset win * (3/2)) (svgHeight win / 2) "#334155",
      .polylineP [(svgWidth win / 2 + frameInset win * (3/2), svgHeight win / 2 - 5),
                  (svgWidth win / 2 + frameInset win * (3/2), svgHeight win / 2),
                  (svgWidth win / 2 + frameInset win * (3/2), svgHeight win / 2 + 5)] "none",
      .polylineP [(svgWidth win - frameInset win * (3/2), svgHeight win / 2 - 5),
                  (svgWidth win - frameInset win * (3/2), svgHeight win / 2),
                  (svgWidth win - frameInset win * (3/2), svgHeight win / 2 + 5)] "none" ]

/-- The shared `doorFrame` of `renderDoor`. -/
def doorFrame (win : Window) : List Prim :=
  [ .rect 0 0 (svgWidth win) (svgHeight win) "window-frame",
    .rect (doorFrameInset win) (doorFrameInset win)
      (svgWidth win - doorFrameInset win * 2) (svgHeight win - doorFrameInset win * 2)
      "#ffffff" ]

/-- The door handle shared by all door branches. -/
def doorHandle (win : Window) : Prim :=
  .circleP (svgWidth win - doorFrameInset win - 15) (svgHeight win / 2) 4 "#888"

/-- `renderDoor(doorType)`: the four door layouts plus the bare frame
default.  Unreachable through the present catalog (no entry carries
`category: "door"`), embedded for completeness. -/
def renderDoor (win : Window) (doorType : String) : List Prim :=
  match doorType with
  | "door-fully-boarded" =>
      doorFrame win
      ++ (List.range 6).map (fun i =>
          .rect (doorFrameInset win)
            (doorFrameInset win
              + (i : ℚ) * ((svgHeight win - doorFrameInset win * 2) / 6))
            (svgWidth win - doorFrameInset win * 2)
            ((svgHeight win - doorFrameInset win * 2) / 6) "#ffffff")
      ++ [doorHandle win]
  | "door-full-glazed" =>
      doorFrame win
      ++ [ .rect (doorFrameInset win + 20) (doorFrameInset win + 20)
            (svgWidth win - doorFrameInset win * 2 - 40)
            (svgHeight win - doorFrameInset win * 2 - 40) "#dbeafe",
          doorHandle win ]
  | "door-half-glazed" =>
      doorFrame win
      ++ [ .rect (doorFrameInset win)
            (doorFrameInset win + (svgHeight win - doorFrameInset win * 2) / 2)
            (svgWidth win - doorFrameInset win * 2)
            ((svgHeight win - doorFrameInset win * 2) / 2) "#ffffff",
          .rect (doorFrameInset win + 15) (doorFrameInset win + 15)
            (svgWidth win - doorFrameInset win * 2 - 30)
            ((svgHeight win - doorFrameInset win * 2) / 2 - 15) "#dbeafe",
          doorHandle win ]
  | "door-6-panel" =>
      doorFrame win
      ++ (List.range 6).map (fun i =>
          .rect (doorFrameInset win
              + ((i % 2 : ℕ) : ℚ) * ((svgWidth win - doorFrameInset win * 2) / 2) + 4)
            (doorFrameInset win
              + ((i / 2 : ℕ) : ℚ) * ((svgHeight win - doorFrameInset win * 2) / 3) + 4)
            ((svgWidth win - doorFrameInset win * 2) / 2 - 8)
            ((svgHeight win - doorFrameInset win * 2) / 3 - 8) "#ffffff")
      ++ [doorHandle win]
  | _ => doorFrame win

/-- `renderWindow()`: dispatch on the resolved catalog entry, with the
door check `windowConfig.category === "door"` first and `null` (the
empty scene) as the default branch. -/
def renderWindow (win : Window) : List Prim :=
  if (windowConfig win).category = some "door" then
    renderDoor win (windowConfig win).id
  else
    match (windowConfig win).id with
    | "single" => renderSingle win
    | "single-transom" => renderSingleTransom win
    | "double" => renderDouble win
    | "double-transom" => renderDoubleTransom win
    | "triple" => renderTriple win
    | "quad" => renderQuad win
    | "quad-transom" => renderQuadTransom win
    | "triple-transom" => renderTripleTransom win
    | "slider" => renderSlider win
    | _ => []

/-- Translation of a point, modelling the SVG group transform. -/
def translatePt (dx dy : ℚ) (p : ℚ × ℚ) : ℚ × ℚ := (p.1 + dx, p.2 + dy)

/-- Translation of a primitive, modelling the SVG group transform
`translate(0, 10)` around `renderWindow()`. -/
def translatePrim (dx dy : ℚ) : Prim → Prim
  | .rect x y w h s => .rect (x + dx) (y + dy) w h s
  | .lineP x1 y1 x2 y2 s => .lineP (x1 + dx) (y1 + dy) (x2 + dx) (y2 + dy) s
  | .polylineP pts s => .polylineP (pts.map (translatePt dx dy)) s
  | .pathP pts s => .pathP (pts.map (translatePt dx dy)) s
  | .circleP cx cy r s => .circleP (cx + dx) (cy + dy) r s
  | .textP x y t => .textP (x + dx) (y + dy) t

/-- The dimension lines, arrows and text labels emitted after the
window drawing. -/
def dimensionPrims (win : Window) : List Prim :=
  [ .lineP 0 (svgHeight win + 20) (svgWidth win) (svgHeight win + 20) "black",
    .lineP 0 (svgHeight win + 15) 0 (svgHeight win + 25) "black",
    .lineP (svgWidth win) (svgHeight win + 15) (svgWidth win) (svgHeight win + 25) "black",
    .textP (svgWidth win / 2) (svgHeight win + 35) (toString win.width ++ "mm"),
    .lineP (svgWidth win + 20) 10 (svgWidth win + 20) (svgHeight win + 10) "black",
    .lineP (svgWidth win + 15) 10 (svgWidth win + 25) 10 "black",
    .lineP (svgWidth win + 15) (svgHeight win + 10) (svgWidth win + 25)
      (svgHeight win + 10) "black",
    .textP (svgWidth win + 35) (svgHeight win / 2 + 10) (toString win.height ++ "mm"),
    .textP (svgWidth win / 2) (svgHeight win + 60 + 10) (effName win),
    .textP (svgWidth win / 2) (svgHeight win + 60 + 22) (windowConfig win).name ]

/-- A rendered scene: the declared SVG canvas size and the primitive
list. -/
structure Scene where
  canvasWidth : ℚ
  canvasHeight : ℚ
  prims : List Prim
deriving DecidableEq

/-- The full component output: canvas of
`(svgWidth + 50) × (svgHeight + 60 + 30)`, the window drawing shifted by
`translate(0, 10)`, then the dimension annotations. -/
def render (win : Window) : Scene :=
  { canvasWidth := svgWidth win + 50,
    canvasHeight := svgHeight win + 60 + 30,
    prims := (renderWindow win).map (translatePrim 0 10) ++ dimensionPrims win }

/-- Recognizer for hinge-indicator primitives: exactly the dashed
`"3,3"` polylines that `renderHingeIndicator` emits. -/
def isHinge : Prim → Bool
  | .polylineP _ "3,3" => true
  | _ => false

/-- The hinge indicators appearing in a window's rendering. -/
def hingePrims (win : Window) : List Prim :=
  (renderWindow win).filter isHinge

/-- The clamping function the specification describes for the transom
height (the source never applies it); stated from the spec for
comparison with the code. -/
def clampSpec (v lo hi : ℚ) : ℚ := min (max v lo) hi

/-- The opening-side vocabulary that any hinge-indicator guard of any
branch tests `openableCasements` against. -/
def ocVocab : List String :=
  ["left", "right", "both", "center", "center-left", "center-right", "outer"]

/-- The y-coordinate of a primitive's anchor (used to compare bar
positions). -/
def primY : Prim → ℚ
  | .rect _ y _ _ _ => y
  | .lineP _ y _ _ _ => y
  | .polylineP pts _ => (pts.headI).2
  | .pathP pts _ => (pts.headI).2
  | .circleP _ cy _ _ => cy
  | .textP _ y _ => y

/-- A window whose Georgian-bar counts are both absent (`undefined`),
with bars enabled. -/
def barsUndefWindow : Window :=
  { type := "single", width := 1000, height := 1000, name := .val "w",
    glassType := "Clear", openableCasements := .val "none",
    hasGeorgianBars := .val true, georgianBarsHorizontal := .undef,
    georgianBarsVertical := .undef, transomHeight := .null,
    topCasementsOpenable := .val "none" }

/-- A single-transom window with a `null` transom height. -/
def transomNullWindow : Window :=
  { type := "single-transom", width := 800, height := 1500, name := .val "w",
    glassType := "Clear", openableCasements := .val "left",
    hasGeorgianBars := .val false, georgianBarsHorizontal := .val 1,
    georgianBarsVertical := .val 1, transomHeight := .null,
    topCasementsOpenable := .val "none" }

/-- The midpoint of two points. -/
def midpointQ (p q : ℚ × ℚ) : ℚ × ℚ := ((p.1 + q.1) / 2, (p.2 + q.2) / 2)

/-- Reflection of a primitive about the vertical line `x = c`. -/
def reflectX (c : ℚ) : Prim → Prim
  | .rect x y w h s => .rect (2*c - x - w) y w h s
  | .lineP x1 y1 x2 y2 s => .lineP (2*c - x1) y1 (2*c - x2) y2 s
  | .polylineP pts s => .polylineP (pts.map (fun p => (2*c - p.1, p.2))) s
  | .pathP pts s => .pathP (pts.map (fun p => (2*c - p.1, p.2))) s
  | .circleP cx cy r s => .circleP (2*c - cx) cy r s
  | .textP x y t => .textP (2*c - x) y t

/-- A large window used as concrete input for the scale-factor claim. -/
def wideWindow : Window :=
  { type := "double", width := 3000, height := 2400, name := .val "w",
    glassType := "Clear", openableCasements := .val "left",
    hasGeorgianBars := .val false, georgianBarsHorizontal := .val 1,
    georgianBarsVertical := .val 1, transomHeight := .null,
    topCasementsOpenable := .val "none" }

/-- A double-transom window with an explicit transom height of 500 mm. -/
def dtWindow : Window :=
  { type := "double-transom", width := 1800, height := 1800, name := .val "w",
    glassType := "Clear", openableCasements := .val "none",
    hasGeorgianBars := .val false, georgianBarsHorizontal := .val 1,
    georgianBarsVertical := .val 1, transomHeight := .val 500,
    topCasementsOpenable := .val "none" }

/-- A concrete spec used to witness the hinge-count claim. -/
def hingeWitnessNone : Window :=
  { type := "triple", width := 1500, height := 1200, name := .val "w",
    glassType := "Clear", openableCasements := .val "none",
    hasGeorgianBars := .val false, georgianBarsHorizontal := .val 1,
    georgianBarsVertical := .val 1, transomHeight := .null,
    topCasementsOpenable := .val "none" }

/-- A concrete spec used to witness the hinge-count claim. -/
def hingeWitnessBoth : Window :=
  { type := "double", width := 1800, height := 1200, name := .val "w",
    glassType := "Clear", openableCasements := .val "both",
    hasGeorgianBars := .val false, georgianBarsHorizontal := .val 1,
    georgianBarsVertical := .val 1, transomHeight := .null,
    topCasementsOpenable := .val "none" }

theorem getWindowTypeById_mem (id : String) : getWindowTypeById id ∈ windowTypes := by
  unfold getWindowTypeById
  cases hf : windowTypes.find? (fun t => t.id == id) with
  | none => simp [windowTypes, List.headI]
  | some e => simpa using List.mem_of_find?_eq_some hf

theorem windowConfig_eq_lookup (win : Window) :
    windowConfig win = getWindowTypeById win.type := rfl

theorem renderHingeIndicator_not_isHinge_rect (x y w h : ℚ) (s : String) :
    isHinge (Prim.rect x y w h s) = false := rfl

theorem horizontalGeorgianBars_no_hinge (num : Int) (gbw x y w h : ℚ) :
    (horizontalGeorgianBars num gbw x y w h).filter isHinge = [] := by
  unfold horizontalGeorgianBars
  split
  · rw [List.filter_eq_nil_iff]
    intro p hp
    obtain ⟨i, _, rfl⟩ := List.mem_map.mp hp
    simp [isHinge]
  · rfl

theorem verticalGeorgianBars_no_hinge (num : Int) (gbw x y w h : ℚ) :
    (verticalGeorgianBars num gbw x y w h).filter isHinge = [] := by
  unfold verticalGeorgianBars
  split
  · rw [List.filter_eq_nil_iff]
    intro p hp
    obtain ⟨i, _, rfl⟩ := List.mem_map.mp hp
    simp [isHinge]
  · rfl

theorem winGeorgianBars_no_hinge (win : Window) (x y w h : ℚ) :
    (winGeorgianBars win x y w h).filter isHinge = [] := by
  unfold winGeorgianBars renderGeorgianBars
  split
  · rfl
  · rw [List.filter_append, horizontalGeorgianBars_no_hinge,
      verticalGeorgianBars_no_hinge]
    rfl

theorem renderWindow_single (win : Window) (h : win.type = "single") :
    renderWindow win = renderSingle win := by
  unfold renderWindow windowConfig
  rw [h]
  rfl

theorem renderWindow_singleTransom (win : Window) (h : win.type = "single-transom") :
    renderWindow win = renderSingleTransom win := by
  unfold renderWindow windowConfig
  rw [h]
  rfl

theorem renderWindow_double (win : Window) (h : win.type = "double") :
    renderWindow win = renderDouble win := by
  unfold renderWindow windowConfig
  rw [h]
  rfl

theorem renderWindow_doubleTransom (win : Window) (h : win.type = "double-transom") :
    renderWindow win = renderDoubleTransom win := by
  unfold renderWindow windowConfig
  rw [h]
  rfl

theorem renderWindow_triple (win : Window) (h : win.type = "triple") :
    renderWindow win = renderTriple win := by
  unfold renderWindow windowConfig
  rw [h]
  rfl

theorem renderWindow_quad (win : Window) (h : win.type = "quad") :
    renderWindow win = renderQuad win := by
  unfold renderWindow windowConfig
  rw [h]
  rfl

theorem renderWindow_quadTransom (win : Window) (h : win.type = "quad-transom") :
    renderWindow win = renderQuadTransom win := by
  unfold renderWindow windowConfig
  rw [h]
  rfl

theorem renderWindow_tripleTransom (win : Window) (h : win.type = "triple-transom") :
    renderWindow win = renderTripleTransom win := by
  unfold renderWindow windowConfig
  rw [h]
  rfl

theorem renderWindow_patio (win : Window) (h : win.type = "patio") :
    renderWindow win = [] := by
  unfold renderWindow windowConfig
  rw [h]
  rfl

theorem windowConfig_fallback (win : Window)
    (h : ∀ e ∈ windowTypes, e.id ≠ win.type) :
    windowConfig win = windowTypes.headI := by
  unfold windowConfig
  rw [List.find?_eq_none.mpr]
  · rfl
  · intro e he
    simp [h e he]

theorem renderWindow_fallback (win : Window)
    (h : ∀ e ∈ windowTypes, e.id ≠ win.type) :
    renderWindow win = renderSingle win := by
  unfold renderWindow
  rw [windowConfig_fallback win h]
  rfl

theorem eqStr_false_of_not_vocab (o : JsOpt String)
    (h : ∀ s, o = JsOpt.val s → s ∉ ocVocab) :
    ∀ t ∈ ocVocab, o.eqStr t = false := by
  intro t ht
  cases o with
  | undef => rfl
  | null => rfl
  | val s =>
      show (s == t) = false
      by_cases hst : s = t
      · exact absurd ht (hst ▸ h s rfl)
      · simp [hst]

theorem renderSingle_no_hinge (win : Window)
    (hv : ∀ t ∈ ocVocab, (effOpenable win).eqStr t = false) :
    (renderSingle win).filter isHinge = [] := by
  have hL := hv "left" (by simp [ocVocab])
  have hR := hv "right" (by simp [ocVocab])
  have hB := hv "both" (by simp [ocVocab])
  unfold renderSingle
  simp [List.filter_append, winGeorgianBars_no_hinge, hL, hR, hB, isHinge]

theorem renderSingleTransom_no_hinge (win : Window)
    (hv : ∀ t ∈ ocVocab, (effOpenable win).eqStr t = false) :
    (renderSingleTransom win).filter isHinge = [] := by
  have hL := hv "left" (by simp [ocVocab])
  have hR := hv "right" (by simp [ocVocab])
  have hB := hv "both" (by simp [ocVocab])
  have hC := hv "center" (by simp [ocVocab])
  unfold renderSingleTransom
  simp [List.filter_append, winGeorgianBars_no_hinge, hL, hR, hB, hC, isHinge,
    apply_ite (List.filter isHinge)]

theorem renderDouble_no_hinge (win : Window)
    (hv : ∀ t ∈ ocVocab, (effOpenable win).eqStr t = false) :
    (renderDouble win).filter isHinge = [] := by
  have hL := hv "left" (by simp [ocVocab])
  have hR := hv "right" (by simp [ocVocab])
  have hB := hv "both" (by simp [ocVocab])
  have hC := hv "center" (by simp [ocVocab])
  unfold renderDouble
  simp [List.filter_append, winGeorgianBars_no_hinge, hL, hR, hB, hC, isHinge]

theorem renderDoubleTransom_no_hinge (win : Window)
    (hv : ∀ t ∈ ocVocab, (effOpenable win).eqStr t = false) :
    (renderDoubleTransom win).filter isHinge = [] := by
  have hL := hv "left" (by simp [ocVocab])
  have hR := hv "right" (by simp [ocVocab])
  have hB := hv "both" (by simp [ocVocab])
  unfold renderDoubleTransom
  simp [List.filter_append, winGeorgianBars_no_hinge, hL, hR, hB, isHinge]

theorem renderTriple_no_hinge (win : Window)
    (hv : ∀ t ∈ ocVocab, (effOpenable win).eqStr t = false) :
    (renderTriple win).filter isHinge = [] := by
  have hL := hv "left" (by simp [ocVocab])
  have hR := hv "right" (by simp [ocVocab])
  have hB := hv "both" (by simp [ocVocab])
  have hCL := hv "center-left" (by simp [ocVocab])
  have hCR := hv "center-right" (by simp [ocVocab])
  unfold renderTriple
  simp [List.filter_append, winGeorgianBars_no_hinge, hL, hR, hB, hCL, hCR, isHinge]

theorem renderQuad_no_hinge (win : Window)
    (hv : ∀ t ∈ ocVocab, (effOpenable win).eqStr t = false) :
    (renderQuad win).filter isHinge = [] := by
  have hL := hv "left" (by simp [ocVocab])
  have hR := hv "right" (by simp [ocVocab])
  have hB := hv "both" (by simp [ocVocab])
  have hO := hv "outer" (by simp [ocVocab])
  have hCL := hv "center-left" (by simp [ocVocab])
  have hCR := hv "center-right" (by simp [ocVocab])
  unfold renderQuad
  simp [List.filter_append, winGeorgianBars_no_hinge, hL, hR, hB, hO, hCL, hCR, isHinge]

theorem renderQuadTransom_no_hinge (win : Window)
    (hv : ∀ t ∈ ocVocab, (effOpenable win).eqStr t = false) :
    (renderQuadTransom win).filter isHinge = [] := by
  have hL := hv "left" (by simp [ocVocab])
  have hR := hv "right" (by simp [ocVocab])
  have hB := hv "both" (by simp [ocVocab])
  have hO := hv "outer" (by simp [ocVocab])
  have hCL := hv "center-left" (by simp [ocVocab])
  have hCR := hv "center-right" (by simp [ocVocab])
  unfold renderQuadTransom
  simp [List.filter_append, winGeorgianBars_no_hinge, hL, hR, hB, hO, hCL, hCR, isHinge]

theorem renderTripleTransom_no_hinge (win : Window)
    (hv : ∀ t ∈ ocVocab, (effOpenable win).eqStr t = false) :
    (renderTripleTransom win).filter isHinge = [] := by
  have hL := hv "left" (by simp [ocVocab])
  have hR := hv "right" (by simp [ocVocab])
  have hB := hv "both" (by simp [ocVocab])
  have hCL := hv "center-left" (by simp [ocVocab])
  have hCR := hv "center-right" (by simp [ocVocab])
  unfold renderTripleTransom
  simp [List.filter_append, winGeorgianBars_no_hinge, hL, hR, hB, hCL, hCR, isHinge]

theorem renderDouble_hinge_both (win : Window)
    (hB : effOpenable win = JsOpt.val "both") :
    (renderDouble win).filter isHinge =
      [renderHingeIndicator (frameInset win) (frameInset win)
        (svgWidth win / 2 - frameInset win - frameThickness win / 2)
        (svgHeight win - frameInset win * 2) .left,
       renderHingeIndicator (svgWidth win / 2 + frameThickness win / 2) (frameInset win)
        (svgWidth win / 2 - frameInset win - frameThickness win / 2)
        (svgHeight win - frameInset win * 2) .right] := by
  unfold renderDouble
  rw [hB]
  simp [List.filter_append, winGeorgianBars_no_hinge, isHinge, JsOpt.eqStr,
    renderHingeIndicator]

theorem renderQuad_hinge_both (win : Window)
    (hB : effOpenable win = JsOpt.val "both") :
    (renderQuad win).filter isHinge =
      [renderHingeIndicator (frameInset win) (frameInset win)
        (sectionWidth4 win - mullionThickness win / 2)
        (svgHeight win - frameInset win * 2) .left,
       renderHingeIndicator
        (frameInset win + sectionWidth4 win * 3 + mullionThickness win / 2)
        (frameInset win) (sectionWidth4 win - mullionThickness win / 2)
        (svgHeight win - frameInset win * 2) .right] := by
  unfold renderQuad
  rw [hB]
  simp [List.filter_append, winGeorgianBars_no_hinge, isHinge, JsOpt.eqStr,
    renderHingeIndicator]

theorem renderDoubleTransom_hinge_both (win : Window)
    (hB : effOpenable win = JsOpt.val "both") :
    (renderDoubleTransom win).filter isHinge =
      [renderHingeIndicator (frameInset win)
        (frameInset win + svgHeight win / 3 + mullionThickness win)
        (svgWidth win / 2 - frameInset win - mullionThickness win / 2)
        (svgHeight win * 2 / 3 - frameInset win - mullionThickness win) .left,
       renderHingeIndicator (svgWidth win / 2 + mullionThickness win / 2)
        (frameInset win + svgHeight win / 3 + mullionThickness win)
        (svgWidth win / 2 - frameInset win - mullionThickness win / 2)
        (svgHeight win * 2 / 3 - frameInset win - mullionThickness win) .right] := by
  unfold renderDoubleTransom
  rw [hB]
  simp [List.filter_append, winGeorgianBars_no_hinge, isHinge, JsOpt.eqStr,
    renderHingeIndicator]

theorem hingePrims_none (win : Window)
    (h : ∀ s, effOpenable win = JsOpt.val s → s ∉ ocVocab) :
    hingePrims win = [] := by
  have hv := eqStr_false_of_not_vocab (effOpenable win) h
  have hmem : windowConfig win ∈ windowTypes := by
    rw [windowConfig_eq_lookup]
    exact getWindowTypeById_mem win.type
  simp only [windowTypes, List.mem_cons, List.not_mem_nil, or_false] at hmem
  unfold hingePrims renderWindow
  rcases hmem with h9|h9|h9|h9|h9|h9|h9|h9|h9 <;> rw [h9]
  · exact renderSingle_no_hinge win hv
  · exact renderDouble_no_hinge win hv
  · exact renderTriple_no_hinge win hv
  · exact renderQuad_no_hinge win hv
  · exact renderSingleTransom_no_hinge win hv
  · exact renderDoubleTransom_no_hinge win hv
  · exact renderTripleTransom_no_hinge win hv
  · exact renderQuadTransom_no_hinge win hv
  · rfl

theorem renderQuadTransom_hinge_both (win : Window)
    (hB : effOpenable win = JsOpt.val "both") :
    (renderQuadTransom win).filter isHinge =
      [renderHingeIndicator (frameInset win)
        (frameInset win + scaledTransomHeight win + mullionThickness win)
        (sectionWidth4 win - mullionThickness win / 2)
        (svgHeight win - frameInset win - scaledTransomHeight win - mullionThickness win)
        .left,
       renderHingeIndicator
        (frameInset win + sectionWidth4 win * 3 + mullionThickness win / 2)
        (frameInset win + scaledTransomHeight win + mullionThickness win)
        (sectionWidth4 win - mullionThickness win / 2)
        (svgHeight win - frameInset win - scaledTransomHeight win - mullionThickness win)
        .right] := by
  unfold renderQuadTransom
  rw [hB]
  simp [List.filter_append, winGeorgianBars_no_hinge, isHinge, JsOpt.eqStr,
    renderHingeIndicator]

/-- C6: with `openableCasements` equal to `"none"` or any other value
outside the recognized vocabulary (including `null`), no branch draws a
hinge indicator; with `"both"`, the two-pane and four-pane types
(`double`, `quad`, and their transom variants) draw exactly two hinge
indicators, one on the leftmost pane hinged left and one on the
rightmost pane hinged right. -/
theorem hinge_indicator_counts (win : Window) :
    ((∀ s, effOpenable win = JsOpt.val s → s ∉ ocVocab) → hingePrims win = [])
    ∧ (effOpenable win = JsOpt.val "both" →
        (win.type = "double" →
          hingePrims win =
            [renderHingeIndicator (frameInset win) (frameInset win)
              (svgWidth win / 2 - frameInset win - frameThickness win / 2)
              (svgHeight win - frameInset win * 2) .left,
             renderHingeIndicator (svgWidth win / 2 + frameThickness win / 2)
              (frameInset win)
              (svgWidth win / 2 - frameInset win - frameThickness win / 2)
              (svgHeight win - frameInset win * 2) .right]
          ∧ (hingePrims win).length = 2)
        ∧ (win.type = "quad" →
          hingePrims win =
            [renderHingeIndicator (frameInset win) (frameInset win)
              (sectionWidth4 win - mullionThickness win / 2)
              (svgHeight win - frameInset win * 2) .left,
             renderHingeIndicator
              (frameInset win + sectionWidth4 win * 3 + mullionThickness win / 2)
              (frameInset win) (sectionWidth4 win - mullionThickness win / 2)
              (svgHeight win - frameInset win * 2) .right]
          ∧ (hingePrims win).length = 2)
        ∧ (win.type = "double-transom" →
          hingePrims win =
            [renderHingeIndicator (frameInset win)
              (frameInset win + svgHeight win / 3 + mullionThickness win)
              (svgWidth win / 2 - frameInset win - mullionThickness win / 2)
              (svgHeight win * 2 / 3 - frameInset win - mullionThickness win) .left,
             renderHingeIndicator (svgWidth win / 2 + mullionThickness win / 2)
              (frameInset win + svgHeight win / 3 + mullionThickness win)
              (svgWidth win / 2 - frameInset win - mullionThickness win / 2)
              (svgHeight win * 2 / 3 - frameInset win - mullionThickness win) .right]
          ∧ (hingePrims win).length = 2)
        ∧ (win.type = "quad-transom" →
          hingePrims win =
            [renderHingeIndicator (frameInset win)
              (frameInset win + scaledTransomHeight win + mullionThickness win)
              (sectionWidth4 win - mullionThickness win / 2)
              (svgHeight win - frameInset win - scaledTransomHeight win
                - mullionThickness win) .left,
             renderHingeIndicator
              (frameInset win + sectionWidth4 win * 3 + mullionThickness win / 2)
              (frameInset win + scaledTransomHeight win + mullionThickness win)
              (sectionWidth4 win - mullionThickness win / 2)
              (svgHeight win - frameInset win - scaledTransomHeight win
                - mullionThickness win) .right]
          ∧ (hingePrims win).length = 2)) := by
  refine ⟨hingePrims_none win, fun hB => ⟨fun ht => ⟨?_, ?_⟩, fun ht => ⟨?_, ?_⟩,
    fun ht => ⟨?_, ?_⟩, fun ht => ⟨?_, ?_⟩⟩⟩
  all_goals unfold hingePrims
  · rw [renderWindow_double win ht]
    exact renderDouble_hinge_both win hB
  · rw [renderWindow_double win ht, renderDouble_hinge_both win hB]
    rfl
  · rw [renderWindow_quad win ht]
    exact renderQuad_hinge_both win hB
  · rw [renderWindow_quad win ht, renderQuad_hinge_both win hB]
    rfl
  · rw [renderWindow_doubleTransom win ht]
    exact renderDoubleTransom_hinge_both win hB
  · rw [renderWindow_doubleTransom win ht, renderDoubleTransom_hinge_both win hB]
    rfl
  · rw [renderWindow_quadTransom win ht]
    exact renderQuadTransom_hinge_both win hB
  · rw [renderWindow_quadTransom win ht, renderQuadTransom_hinge_both win hB]
    rfl

/-- C3: the type-catalog lookup is total: for any input string it
returns a catalog entry; when some entry's id matches it returns an
entry with that id, otherwise the catalog's first entry (the single
casement).  The drawing engine resolves its branch through the very
same lookup. -/
theorem lookup_total_with_fallback (id : String) :
    getWindowTypeById id ∈ windowTypes
    ∧ ((∃ e ∈ windowTypes, e.id = id) → (getWindowTypeById id).id = id)
    ∧ ((∀ e ∈ windowTypes, e.id ≠ id) → getWindowTypeById id = windowTypes.headI)
    ∧ (∀ win : Window, win.type = id → windowConfig win = getWindowTypeById id) := by
  refine ⟨getWindowTypeById_mem id, ?_, ?_, ?_⟩
  · rintro ⟨e, he, hid⟩
    unfold getWindowTypeById
    cases hf : windowTypes.find? (fun t => t.id == id) with
    | none =>
        exact absurd (by simpa using List.find?_eq_none.mp hf e he) (by simp [hid])
    | some f =>
        have := List.find?_some hf
        simpa using this
  · intro h
    unfold getWindowTypeById
    rw [List.find?_eq_none.mpr]
    · rfl
    · intro e he
      simp [h e he]
  · intro win ht
    rw [windowConfig_eq_lookup, ht]

/-- Witness for C3 at concrete inputs: the id `"double"` resolves to the
double-casement entry, and the unknown id `"nonexistent-type"` falls
back to the catalog's first entry. -/
theorem lookup_total_with_fallback_witness :
    (getWindowTypeById "double").id = "double"
    ∧ getWindowTypeById "nonexistent-type" = windowTypes.headI :=
  ⟨(lookup_total_with_fallback "double").2.1
      ⟨getWindowTypeById "double", by decide, by decide⟩,
   (lookup_total_with_fallback "nonexistent-type").2.2.1 (by decide)⟩

/-- C4: with Georgian bars enabled, a pane receives exactly `h`
horizontal bar primitives (`h = 0` gives none), the i-th centred at
vertical offset `paneHeight / (h+1) * i`, so consecutive gaps are all
`paneHeight / (h+1)`; symmetrically for the vertical count; the later
revision draws the same count of line primitives at the same offsets. -/
theorem georgian_bars_counts (numH numV : Int) (gbw x y w h : ℚ)
    (hH : 0 ≤ numH) (hV : 0 ≤ numV) :
    renderGeorgianBars true numH numV gbw x y w h =
      horizontalGeorgianBars numH gbw x y w h ++ verticalGeorgianBars numV gbw x y w h
    ∧ (horizontalGeorgianBars numH gbw x y w h).length = numH.toNat
    ∧ (verticalGeorgianBars numV gbw x y w h).length = numV.toNat
    ∧ (numH = 0 → horizontalGeorgianBars numH gbw x y w h = [])
    ∧ (numV = 0 → verticalGeorgianBars numV gbw x y w h = [])
    ∧ (∀ i : ℕ, i < numH.toNat →
        (horizontalGeorgianBars numH gbw x y w h)[i]? =
          some (.rect x (y + h / ((numH : ℚ) + 1) * ((i : ℚ) + 1) - gbw/2)
            w gbw "#ffffff"))
    ∧ (∀ i : ℕ, i < numV.toNat →
        (verticalGeorgianBars numV gbw x y w h)[i]? =
          some (.rect (x + w / ((numV : ℚ) + 1) * ((i : ℚ) + 1) - gbw/2)
            y gbw h "#ffffff"))
    ∧ (∀ i : ℕ, ∀ h1 : i + 1 < (horizontalGeorgianBars numH gbw x y w h).length,
        primY ((horizontalGeorgianBars numH gbw x y w h).get ⟨i + 1, h1⟩)
          - primY ((horizontalGeorgianBars numH gbw x y w h).get
              ⟨i, Nat.lt_of_succ_lt h1⟩)
          = h / ((numH : ℚ) + 1))
    ∧ (horizontalGeorgianBarsAlt numH x y w h).length = numH.toNat
    ∧ (∀ i : ℕ, i < numH.toNat →
        (horizontalGeorgianBarsAlt numH x y w h)[i]? =
          some (.lineP x (y + h / ((numH : ℚ) + 1) * ((i : ℚ) + 1))
            (x + w) (y + h / ((numH : ℚ) + 1) * ((i : ℚ) + 1)) "#475569")) := by
  have hlen : (horizontalGeorgianBars numH gbw x y w h).length = numH.toNat := by
    unfold horizontalGeorgianBars
    split
    · simp
    · simp only [List.length_nil]
      omega
  have hidx : ∀ i : ℕ, i < numH.toNat →
      (horizontalGeorgianBars numH gbw x y w h)[i]? =
        some (.rect x (y + h / ((numH : ℚ) + 1) * ((i : ℚ) + 1) - gbw/2)
          w gbw "#ffffff") := by
    intro i hi
    unfold horizontalGeorgianBars
    rw [if_pos (by omega)]
    simp [List.getElem?_map, List.getElem?_range, hi]
  have hget : ∀ j : ℕ, ∀ hj : j < (horizontalGeorgianBars numH gbw x y w h).length,
      (horizontalGeorgianBars numH gbw x y w h).get ⟨j, hj⟩ =
        .rect x (y + h / ((numH : ℚ) + 1) * ((j : ℚ) + 1) - gbw/2) w gbw "#ffffff" := by
    intro j hj
    have h2 := hidx j (hlen ▸ hj)
    rw [List.getElem?_eq_getElem hj] at h2
    rw [List.get_eq_getElem]
    exact Option.some_injective _ h2
  refine ⟨by unfold renderGeorgianBars; rfl, hlen, ?_, ?_, ?_, hidx, ?_, ?_, ?_, ?_⟩
  · unfold verticalGeorgianBars
    split
    · simp
    · simp only [List.length_nil]
      omega
  · intro h0
    unfold horizontalGeorgianBars
    simp [h0]
  · intro h0
    unfold verticalGeorgianBars
    simp [h0]
  · intro i hi
    unfold verticalGeorgianBars
    rw [if_pos (by omega)]
    simp [List.getElem?_map, List.getElem?_range, hi]
  · intro i h1
    rw [hget (i + 1) h1, hget i (Nat.lt_of_succ_lt h1)]
    simp only [primY]
    push_cast
    ring
  · unfold horizontalGeorgianBarsAlt
    split
    · simp
    · simp only [List.length_nil]
      omega
  · intro i hi
    unfold horizontalGeorgianBarsAlt
    rw [if_pos (by omega)]
    simp [List.getElem?_map, List.getElem?_range, hi]

/-- Witness for C4 at concrete inputs: two requested horizontal bars
yield two bar primitives and a zero vertical count yields none. -/
theorem georgian_bars_counts_witness :
    (horizontalGeorgianBars 2 2 0 0 100 90).length = 2
    ∧ verticalGeorgianBars 0 2 0 0 100 90 = [] :=
  ⟨(georgian_bars_counts 2 0 2 0 0 100 90 (by decide) (by decide)).2.1,
   (georgian_bars_counts 2 0 2 0 0 100 90 (by decide) (by decide)).2.2.2.2.1 rfl⟩

/-- Counterexample to C5: in the main revision, an absent
`georgianBarsVertical` destructures to the default `0`, not `1`, so the
pane gets no vertical bars where the claim demands one. -/
theorem georgian_missing_default_counterexample :
    effGeorgianVertical barsUndefWindow = 0
    ∧ effGeorgianVertical barsUndefWindow ≠ 1
    ∧ verticalGeorgianBars (effGeorgianVertical barsUndefWindow)
        (georgianBarWidth barsUndefWindow) 0 0 100 100 = [] := by
  refine ⟨rfl, by decide, rfl⟩

/-- C5 amended: an absent or `undefined` `georgianBarsHorizontal` is
treated as `1`, but an absent `georgianBarsVertical` is treated as `0`
in the main revision (the later revision treats it as `1`); a `null`
value on either axis is treated as `1` via the `typeof` check. -/
theorem georgian_missing_defaults (win : Window) :
    (win.georgianBarsHorizontal = JsOpt.undef → effGeorgianHorizontal win = 1)
    ∧ (win.georgianBarsHorizontal = JsOpt.null → effGeorgianHorizontal win = 1)
    ∧ (win.georgianBarsVertical = JsOpt.undef → effGeorgianVertical win = 0)
    ∧ (win.georgianBarsVertical = JsOpt.null → effGeorgianVertical win = 1)
    ∧ (win.georgianBarsVertical = JsOpt.undef → effGeorgianVerticalAlt win = 1)
    ∧ (win.georgianBarsVertical = JsOpt.null → effGeorgianVerticalAlt win = 1) := by
  refine ⟨?_, ?_, ?_, ?_, ?_, ?_⟩ <;>
    · intro h
      simp only [effGeorgianHorizontal, effGeorgianVertical, effGeorgianVerticalAlt]
      rw [h]
      rfl

/-- Witness for the amended C5 at a concrete input with both counts
absent. -/
theorem georgian_missing_defaults_witness :
    effGeorgianHorizontal barsUndefWindow = 1
    ∧ effGeorgianVertical barsUndefWindow = 0
    ∧ effGeorgianVerticalAlt barsUndefWindow = 1 :=
  ⟨(georgian_missing_defaults barsUndefWindow).1 rfl,
   (georgian_missing_defaults barsUndefWindow).2.2.1 rfl,
   (georgian_missing_defaults barsUndefWindow).2.2.2.2.1 rfl⟩

/-- C10: an absent (`undefined`) or `null` `transomHeight` is replaced
by 400 millimetres before scaling — `undefined` by the destructuring
default, `null` by the `?? 400` fallback — matching the schema column
default; the single-transom branch then places its transom bar
`400 * scaleFactor` below the glass top. -/
theorem transom_default_400 (win : Window)
    (h : win.transomHeight = JsOpt.undef ∨ win.transomHeight = JsOpt.null) :
    effTransomHeight win = 400
    ∧ scaledTransomHeight win = 400 * scaleFactor win.width win.height
    ∧ (win.type = "single-transom" →
        Prim.rect (frameInset win)
          (frameInset win + 400 * scaleFactor win.width win.height)
          (svgWidth win - frameInset win * 2) (mullionThickness win) "window-mullion"
          ∈ renderWindow win) := by
  have h4 : effTransomHeight win = 400 := by
    unfold effTransomHeight
    rcases h with h|h <;> rw [h] <;> rfl
  have hs : scaledTransomHeight win = 400 * scaleFactor win.width win.height := by
    unfold scaledTransomHeight
    rw [h4]
    norm_num
  refine ⟨h4, hs, fun ht => ?_⟩
  rw [renderWindow_singleTransom win ht]
  unfold renderSingleTransom
  rw [← hs]
  simp

/-- Witness for C10 at a concrete input: with `transomHeight = null`
the effective value is 400 and the transom bar sits at `400 * scale`. -/
theorem transom_default_400_witness :
    effTransomHeight transomNullWindow = 400
    ∧ Prim.rect (frameInset transomNullWindow)
        (frameInset transomNullWindow
          + 400 * scaleFactor transomNullWindow.width transomNullWindow.height)
        (svgWidth transomNullWindow - frameInset transomNullWindow * 2)
        (mullionThickness transomNullWindow) "window-mullion"
        ∈ renderWindow transomNullWindow :=
  ⟨(transom_default_400 transomNullWindow (Or.inr rfl)).1,
   (transom_default_400 transomNullWindow (Or.inr rfl)).2.2 rfl⟩

/-- C7: the hinge indicator for a pane at `(x, y)` of size `w × h` with
a left hinge is the dashed three-point polyline top-right corner →
midpoint of the left edge → bottom-right corner, and the right-hinge
indicator is its mirror image about the pane's vertical centre line. -/
theorem hinge_indicator_shape (x y w h : ℚ) :
    renderHingeIndicator x y w h .left =
      .polylineP [(x + w, y), (x, y + h/2), (x + w, y + h)] "3,3"
    ∧ (x, y + h/2) = midpointQ (x, y) (x, y + h)
    ∧ renderHingeIndicator x y w h .right =
        reflectX (x + w/2) (renderHingeIndicator x y w h .left)
    ∧ isHinge (renderHingeIndicator x y w h .left) = true
    ∧ isHinge (renderHingeIndicator x y w h .right) = true := by
  refine ⟨rfl, ?_, ?_, rfl, rfl⟩
  · unfold midpointQ
    simp only [Prod.mk.injEq]
    constructor <;> ring
  · unfold renderHingeIndicator reflectX
    simp only [List.map, Prim.polylineP.injEq, List.cons.injEq, Prod.mk.injEq]
    norm_num
    refine ⟨by ring, by ring, by ring⟩

/-- C8: the drawing engine is deterministic — it is a pure function of
the window record, so identical inputs yield identical scene graphs. -/
theorem render_deterministic (w1 w2 : Window) (h : w1 = w2) :
    render w1 = render w2 := by rw [h]

/-- Witness for C8 at a concrete input. -/
theorem render_deterministic_witness :
    render transomNullWindow = render transomNullWindow :=
  render_deterministic transomNullWindow transomNullWindow rfl

/-- C9: two windows differing only in `glassType` render identically:
the main revision computes `glassColor` from `glassType` but never uses
it in any emitted primitive, so the scene graphs are equal outright (in
particular all geometry agrees). -/
theorem glass_type_no_geometry_effect (t : String) (w h : Int) (n : JsOpt String)
    (g1 g2 : String) (oc : JsOpt String) (hb : JsOpt Bool) (gh gv th : JsOpt Int)
    (tc : JsOpt String) :
    render ⟨t, w, h, n, g1, oc, hb, gh, gv, th, tc⟩ =
      render ⟨t, w, h, n, g2, oc, hb, gh, gv, th, tc⟩ := rfl

theorem jround_close (q : ℚ) : |((jround q : Int) : ℚ) - q| ≤ 1/2 := by
  unfold jround
  rw [abs_le]
  constructor
  · have := Int.sub_one_lt_floor (q + 1/2)
    push_cast at this ⊢
    linarith
  · have := Int.floor_le (q + 1/2)
    push_cast at this ⊢
    linarith

theorem jround_ge (q : ℚ) : q - 1/2 ≤ ((jround q : Int) : ℚ) := by
  have := jround_close q
  rw [abs_le] at this
  linarith

/-- Counterexample to C2's second clause: at width 3000, height 2400
the scale factor is 1/10, but the drawn frame thickness is
`max(3, round(4.5)) = 5` pixels, not the claimed `45 mm × 1/10 = 4.5`. -/
theorem scale_pixel_counterexample :
    scaleFactor wideWindow.width wideWindow.height = 1/10
    ∧ frameThickness wideWindow ≠ 45 * scaleFactor wideWindow.width wideWindow.height := by
  constructor <;>
    norm_num [scaleFactor, frameThickness, jround, min_def, max_def, wideWindow]

/-- C2 amended: for positive dimensions the uniform scale factor is
exactly `min(300/width, 240/height, 0.2)` (it is bounded by and attains
one of the three ratios); pixel lengths are the millimetre values times
this factor only up to rounding (within 1/2 pixel) and a minimum clamp
(the frame is never thinner than 3 pixels), not exactly `mm * factor`. -/
theorem scale_factor_formula (win : Window)
    (hw : 0 < win.width) (hh : 0 < win.height) :
    scaleFactor win.width win.height ≤ 300 / (win.width : ℚ)
    ∧ scaleFactor win.width win.height ≤ 240 / (win.height : ℚ)
    ∧ scaleFactor win.width win.height ≤ 1/5
    ∧ (scaleFactor win.width win.height = 300 / (win.width : ℚ)
        ∨ scaleFactor win.width win.height = 240 / (win.height : ℚ)
        ∨ scaleFactor win.width win.height = 1/5)
    ∧ |svgWidth win - (win.width : ℚ) * scaleFactor win.width win.height| ≤ 1/2
    ∧ |svgHeight win - (win.height : ℚ) * scaleFactor win.width win.height| ≤ 1/2
    ∧ 45 * scaleFactor win.width win.height - 1/2 ≤ frameThickness win
    ∧ 3 ≤ frameThickness win := by
  refine ⟨?_, ?_, ?_, ?_, ?_, ?_, ?_, ?_⟩
  · exact le_trans (min_le_left _ _) (min_le_left _ _)
  · exact le_trans (min_le_left _ _) (min_le_right _ _)
  · exact min_le_right _ _
  · unfold scaleFactor
    rcases min_cases (min (300 / (win.width : ℚ)) (240 / (win.height : ℚ))) (1/5) with
      ⟨he, _⟩ | ⟨he, _⟩
    · rcases min_cases (300 / (win.width : ℚ)) (240 / (win.height : ℚ)) with
        ⟨he2, _⟩ | ⟨he2, _⟩
      · exact Or.inl (he.trans he2)
      · exact Or.inr (Or.inl (he.trans he2))
    · exact Or.inr (Or.inr he)
  · exact jround_close _
  · exact jround_close _
  · unfold frameThickness
    have h1 := jround_ge (45 * scaleFactor win.width win.height)
    have h2 : ((jround (45 * scaleFactor win.width win.height) : Int) : ℚ)
        ≤ ((max 3 (jround (45 * scaleFactor win.width win.height)) : Int) : ℚ) := by
      exact_mod_cast le_max_right _ _
    linarith
  · unfold frameThickness
    exact_mod_cast le_max_left _ _

/-- Witness for the amended C2 at a concrete input. -/
theorem scale_factor_formula_witness :
    scaleFactor wideWindow.width wideWindow.height ≤ 1/5
    ∧ 3 ≤ frameThickness wideWindow :=
  ⟨(scale_factor_formula wideWindow (by decide) (by decide)).2.2.1,
   (scale_factor_formula wideWindow (by decide) (by decide)).2.2.2.2.2.2.2⟩

/-- Counterexample to C1: for the double-transom window of 1800×1800 mm
with `transomHeight = 500`, the rendered transom bar sits at
`svgHeight / 3 = 80` pixels below the glass top, while
`clamp(500, 0, 1800) * scale = 200/3` — the upper band ignores
`transomHeight` entirely in this branch. -/
theorem transom_clamp_counterexample :
    Prim.rect (frameInset dtWindow) (frameInset dtWindow + svgHeight dtWindow / 3)
      (svgWidth dtWindow - frameInset dtWindow * 2) (mullionThickness dtWindow)
      "window-mullion" ∈ renderWindow dtWindow
    ∧ svgHeight dtWindow / 3
      ≠ clampSpec ((effTransomHeight dtWindow : Int) : ℚ) 0 ((dtWindow.height : Int) : ℚ)
          * scaleFactor dtWindow.width dtWindow.height := by
  constructor
  · rw [renderWindow_doubleTransom dtWindow rfl]
    unfold renderDoubleTransom
    simp
  · norm_num [svgHeight, jround, scaleFactor, clampSpec, effTransomHeight, dtWindow,
      min_def, max_def, JsOpt.orDefault, JsOpt.coalesce]

/-- C1 amended: the transom geometry the code actually draws.  For
`single-transom` and `quad-transom` the transom bar sits
`(transomHeight ?? 400) * scale` below the glass top with no clamping to
`[0, height]`; for `double-transom` and `triple-transom` it sits at a
fixed `svgHeight / 3` regardless of `transomHeight`; and in the
single-transom branch the upper band, lower band and mullion thickness
sum to `svgHeight − frameInset − 10`, which in general differs from the
scaled interior height `svgHeight − 2·frameInset`. -/
theorem transom_band_geometry (win : Window) :
    (win.type = "single-transom" →
      Prim.rect (frameInset win) (frameInset win + scaledTransomHeight win)
        (svgWidth win - frameInset win * 2) (mullionThickness win) "window-mullion"
        ∈ renderWindow win
      ∧ Prim.rect (frameInset win - 1)
          (frameInset win + scaledTransomHeight win + mullionThickness win - 1)
          (svgWidth win - frameInset win * 2 + 2)
          (svgHeight win - frameInset win - 10 - scaledTransomHeight win
            - mullionThickness win)
          "window-casement" ∈ renderWindow win
      ∧ scaledTransomHeight win
          + (svgHeight win - frameInset win - 10 - scaledTransomHeight win
              - mullionThickness win)
          + mullionThickness win
        = svgHeight win - frameInset win - 10)
    ∧ (win.type = "quad-transom" →
        Prim.rect (frameInset win) (frameInset win + scaledTransomHeight win)
          (svgWidth win - frameInset win * 2) (mullionThickness win) "window-mullion"
          ∈ renderWindow win)
    ∧ (win.type = "double-transom" →
        Prim.rect (frameInset win) (frameInset win + svgHeight win / 3)
          (svgWidth win - frameInset win * 2) (mullionThickness win) "window-mullion"
          ∈ renderWindow win)
    ∧ (win.type = "triple-transom" →
        Prim.rect (frameInset win) (frameInset win + svgHeight win / 3)
          (svgWidth win - frameInset win * 2) (mullionThickness win) "window-mullion"
          ∈ renderWindow win) := by
  refine ⟨fun ht => ⟨?_, ?_, by ring⟩, fun ht => ?_, fun ht => ?_, fun ht => ?_⟩
  · rw [renderWindow_singleTransom win ht]
    unfold renderSingleTransom
    simp
  · rw [renderWindow_singleTransom win ht]
    unfold renderSingleTransom
    simp
  · rw [renderWindow_quadTransom win ht]
    unfold renderQuadTransom
    simp
  · rw [renderWindow_doubleTransom win ht]
    unfold renderDoubleTransom
    simp
  · rw [renderWindow_tripleTransom win ht]
    unfold renderTripleTransom
    simp

/-- Witness for the amended C1 at concrete inputs: the single-transom
window with `null` transom height carries its bar at
`scaledTransomHeight`, and the 1800×1800 double-transom window carries
its bar at `svgHeight / 3`. -/
theorem transom_band_geometry_witness :
    Prim.rect (frameInset transomNullWindow)
      (frameInset transomNullWindow + scaledTransomHeight transomNullWindow)
      (svgWidth transomNullWindow - frameInset transomNullWindow * 2)
      (mullionThickness transomNullWindow) "window-mullion"
      ∈ renderWindow transomNullWindow
    ∧ Prim.rect (frameInset dtWindow) (frameInset dtWindow + svgHeight dtWindow / 3)
        (svgWidth dtWindow - frameInset dtWindow * 2) (mullionThickness dtWindow)
        "window-mullion" ∈ renderWindow dtWindow :=
  ⟨((transom_band_geometry transomNullWindow).1 rfl).1,
   (transom_band_geometry dtWindow).2.2.1 rfl⟩

/-- Witness for C6 at concrete inputs: a triple window with
`openableCasements = "none"` has no hinge indicators, and a double
window with `"both"` has exactly two. -/
theorem hinge_indicator_counts_witness :
    hingePrims hingeWitnessNone = [] ∧ (hingePrims hingeWitnessBoth).length = 2 :=
  ⟨(hinge_indicator_counts hingeWitnessNone).1
      (fun s hs => by cases hs; decide),
   (((hinge_indicator_counts hingeWitnessBoth).2 rfl).1 rfl).2⟩
